import Mathlib

/-
  Verification of the AuditKit compliance scanner corpus.

  Shallow embedding of the Go sources under scanner/pkg/aws/checks
  (opensearch.go, elasticache.go, sagemaker.go, redshift checks) and
  scanner/pkg/offline/cache.go, together with the cross-framework
  collapsing and scoring engine described by the specification.

  Cloud clients are modelled as environments: each AWS list call is a
  field of type Except String (error or response), and each per-resource
  describe call is a field of type Option (the Go code discards the
  error value of every describe call, so only success or failure is
  observable).  Go time.Now() is modelled by an explicit clock argument.
-/

set_option maxHeartbeats 1000000

/-- Go helper aws.ToString: dereference a possibly nil string pointer,
nil becoming the empty string. -/
def awsToString (o : Option String) : String :=
  match o with
  | some s => s
  | none => ""

/-- Go helper aws.ToBool: dereference a possibly nil bool pointer,
nil becoming false. -/
def awsToBool (o : Option Bool) : Bool :=
  match o with
  | some b => b
  | none => false

/-- Go fmt "%v" rendering of a []string value: the elements separated by
single spaces inside square brackets, e.g. [cluster-a cluster-b]. -/
def goFmtStrList (xs : List String) : String :=
  "[" ++ String.intercalate (" ") xs ++ "]"

/-- Go fmt.Sprintf("%d<mid>%v", n, xs): decimal count, a literal middle
segment, then the %v rendering of the offending-resource list.  Every
FAIL-branch Evidence string in the check corpus has this shape. -/
def failEvidence (n : Nat) (mid : String) (xs : List String) : String :=
  Nat.repr n ++ mid ++ goFmtStrList xs

/-- Modelled from the spec: the Priority enum of a CheckResult
("Priority (enum, independent of Severity): used for ranking").  The
constants PriorityCritical .. PriorityInfo are referenced by every check
in the corpus but declared in a file outside it. -/
inductive PriorityLevel where
  | critical
  | high
  | medium
  | low
  | info
  deriving Repr, DecidableEq, Inhabited

def PriorityCritical : PriorityLevel := PriorityLevel.critical

def PriorityHigh : PriorityLevel := PriorityLevel.high

def PriorityMedium : PriorityLevel := PriorityLevel.medium

def PriorityLow : PriorityLevel := PriorityLevel.low

def PriorityInfo : PriorityLevel := PriorityLevel.info

/-- The CheckResult record produced by one leaf check invocation
(field set as used by opensearch.go / elasticache.go / sagemaker.go and
the Redshift checks; unset Go fields default to their zero values). -/
structure CheckResult where
  Control : String := ""
  Name : String := ""
  Status : String := ""
  Severity : String := ""
  Evidence : String := ""
  Remediation : String := ""
  RemediationDetail : String := ""
  ScreenshotGuide : String := ""
  ConsoleURL : String := ""
  Priority : PriorityLevel := PriorityLevel.info
  Timestamp : Nat := 0
  Frameworks : List (String × String) := []
  deriving Repr, DecidableEq, Inhabited

/-- Modelled from the spec: the truncation helper truncateList(xs, max)
called by the SageMaker training-job and model-isolation checks but
declared in a file outside the corpus; the spec fixes the policy as
"top 5 with a +N more count" ("e.g. top 5 with \x22+N more\x22"). -/
def truncateList (xs : List String) (max : Nat) : List String :=
  if xs.length ≤ max then xs
  else xs.take max ++ ["... and " ++ Nat.repr (xs.length - max) ++ " more"]

/- ===================== OpenSearch (opensearch.go) ===================== -/

structure OSEncryptionAtRestOptions where
  Enabled : Option Bool
  deriving Repr, DecidableEq

structure OSNodeToNodeEncryptionOptions where
  Enabled : Option Bool
  deriving Repr, DecidableEq

structure OSDomainEndpointOptions where
  EnforceHTTPS : Option Bool
  deriving Repr, DecidableEq

structure OSVPCOptions where
  SubnetIds : List String
  deriving Repr, DecidableEq

structure OSLogConfig where
  Enabled : Option Bool
  deriving Repr, DecidableEq

structure OSAdvancedSecurityOptions where
  Enabled : Option Bool
  deriving Repr, DecidableEq

/-- DomainStatus fields of a DescribeDomain response as read by
opensearch.go (the Go map LogPublishingOptions is modelled as an
association list). -/
structure OSDomainStatus where
  EncryptionAtRestOptions : Option OSEncryptionAtRestOptions := none
  NodeToNodeEncryptionOptions : Option OSNodeToNodeEncryptionOptions := none
  DomainEndpointOptions : Option OSDomainEndpointOptions := none
  VPCOptions : Option OSVPCOptions := none
  LogPublishingOptions : Option (List (String × OSLogConfig)) := none
  AdvancedSecurityOptions : Option OSAdvancedSecurityOptions := none
  deriving Repr, DecidableEq

/-- One entry of a ListDomainNames response (DomainName is a *string). -/
structure OSDomainInfo where
  DomainName : Option String
  deriving Repr, DecidableEq

/-- The opensearch.Client as observed by OpenSearchChecks: the response
of the ListDomainNames call and, per domain name pointer, the outcome of
DescribeDomain (none models an error, whose value the Go code drops). -/
structure OpenSearchEnv where
  listDomainNames : Except String (List OSDomainInfo)
  describeDomain : Option String → Option OSDomainStatus

section ChecksCorpus

variable (tbl : String → List (String × String))

def OpenSearchChecks.CheckEncryptionAtRest (env : OpenSearchEnv) (now : Nat) :
    Except String CheckResult :=
  match env.listDomainNames with
  | Except.error e => Except.error e
  | Except.ok domains =>
    let unencrypted := domains.filterMap (fun domain =>
      let domainName := awsToString domain.DomainName
      match env.describeDomain domain.DomainName with
      | none => none
      | some detail =>
        match detail.EncryptionAtRestOptions with
        | none => some domainName
        | some opts =>
          if !(awsToBool opts.Enabled) then some domainName else none)
    if unencrypted.length > 0 then
      Except.ok {
        Control := "CC6.3"
        Name := "OpenSearch Encryption at Rest"
        Status := "FAIL"
        Severity := "CRITICAL"
        Evidence := failEvidence unencrypted.length
          (" OpenSearch domains without encryption at rest: ") unencrypted
        Remediation := "Enable encryption at rest for OpenSearch domains"
        RemediationDetail := "Update domain configuration to enable encryption at rest with KMS key"
        ScreenshotGuide := "OpenSearch Console → Domains → Select domain → Security → Screenshot showing \x27Encryption at rest: Enabled\x27"
        ConsoleURL := "https://console.aws.amazon.com/aos/home#opensearch/domains"
        Priority := PriorityCritical
        Timestamp := now
        Frameworks := tbl ("OPENSEARCH_ENCRYPTION") }
    else if domains.length = 0 then
      Except.ok {
        Control := "CC6.3"
        Name := "OpenSearch Encryption at Rest"
        Status := "PASS"
        Evidence := "No OpenSearch domains found"
        Priority := PriorityInfo
        Timestamp := now
        Frameworks := tbl ("OPENSEARCH_ENCRYPTION") }
    else
      Except.ok {
        Control := "CC6.3"
        Name := "OpenSearch Encryption at Rest"
        Status := "PASS"
        Evidence := "All " ++ Nat.repr domains.length ++ " OpenSearch domains have encryption at rest enabled"
        Priority := PriorityInfo
        Timestamp := now
        Frameworks := tbl ("OPENSEARCH_ENCRYPTION") }

def OpenSearchChecks.CheckNodeToNodeEncryption (env : OpenSearchEnv) (now : Nat) :
    Except String CheckResult :=
  match env.listDomainNames with
  | Except.error e => Except.error e
  | Except.ok domains =>
    let noNodeEncryption := domains.filterMap (fun domain =>
      let domainName := awsToString domain.DomainName
      match env.describeDomain domain.DomainName with
      | none => none
      | some detail =>
        match detail.NodeToNodeEncryptionOptions with
        | none => some domainName
        | some opts =>
          if !(awsToBool opts.Enabled) then some domainName else none)
    if noNodeEncryption.length > 0 then
      Except.ok {
        Control := "CC6.4"
        Name := "OpenSearch Node-to-Node Encryption"
        Status := "FAIL"
        Severity := "HIGH"
        Evidence := failEvidence noNodeEncryption.length
          (" OpenSearch domains without node-to-node encryption: ") noNodeEncryption
        Remediation := "Enable node-to-node encryption for OpenSearch domains"
        RemediationDetail := "Update domain configuration to enable node-to-node encryption (may require blue/green deployment)"
        ScreenshotGuide := "OpenSearch Console → Domains → Select domain → Security → Screenshot showing \x27Node-to-node encryption: Enabled\x27"
        ConsoleURL := "https://console.aws.amazon.com/aos/home#opensearch/domains"
        Priority := PriorityHigh
        Timestamp := now
        Frameworks := tbl ("OPENSEARCH_TRANSIT") }
    else if domains.length = 0 then
      Except.ok {
        Control := "CC6.4"
        Name := "OpenSearch Node-to-Node Encryption"
        Status := "PASS"
        Evidence := "No OpenSearch domains found"
        Priority := PriorityInfo
        Timestamp := now
        Frameworks := tbl ("OPENSEARCH_TRANSIT") }
    else
      Except.ok {
        Control := "CC6.4"
        Name := "OpenSearch Node-to-Node Encryption"
        Status := "PASS"
        Evidence := "All " ++ Nat.repr domains.length ++ " OpenSearch domains have node-to-node encryption enabled"
        Priority := PriorityInfo
        Timestamp := now
        Frameworks := tbl ("OPENSEARCH_TRANSIT") }

def OpenSearchChecks.CheckHTTPS (env : OpenSearchEnv) (now : Nat) :
    Except String CheckResult :=
  match env.listDomainNames with
  | Except.error e => Except.error e
  | Except.ok domains =>
    let noHTTPS := domains.filterMap (fun domain =>
      let domainName := awsToString domain.DomainName
      match env.describeDomain domain.DomainName with
      | none => none
      | some detail =>
        match detail.DomainEndpointOptions with
        | none => some domainName
        | some opts =>
          if !(awsToBool opts.EnforceHTTPS) then some domainName else none)
    if noHTTPS.length > 0 then
      Except.ok {
        Control := "CC6.4"
        Name := "OpenSearch HTTPS Required"
        Status := "FAIL"
        Severity := "HIGH"
        Evidence := failEvidence noHTTPS.length
          (" OpenSearch domains not enforcing HTTPS: ") noHTTPS
        Remediation := "Enable HTTPS enforcement for OpenSearch domains"
        RemediationDetail := "Update domain endpoint options to enforce HTTPS and use TLS 1.2 minimum"
        ScreenshotGuide := "OpenSearch Console → Domains → Select domain → Security → Screenshot showing \x27Require HTTPS: Yes\x27"
        ConsoleURL := "https://console.aws.amazon.com/aos/home#opensearch/domains"
        Priority := PriorityHigh
        Timestamp := now
        Frameworks := tbl ("OPENSEARCH_HTTPS") }
    else if domains.length = 0 then
      Except.ok {
        Control := "CC6.4"
        Name := "OpenSearch HTTPS Required"
        Status := "PASS"
        Evidence := "No OpenSearch domains found"
        Priority := PriorityInfo
        Timestamp := now
        Frameworks := tbl ("OPENSEARCH_HTTPS") }
    else
      Except.ok {
        Control := "CC6.4"
        Name := "OpenSearch HTTPS Required"
        Status := "PASS"
        Evidence := "All " ++ Nat.repr domains.length ++ " OpenSearch domains enforce HTTPS"
        Priority := PriorityInfo
        Timestamp := now
        Frameworks := tbl ("OPENSEARCH_HTTPS") }

def OpenSearchChecks.CheckVPCDeployment (env : OpenSearchEnv) (now : Nat) :
    Except String CheckResult :=
  match env.listDomainNames with
  | Except.error e => Except.error e
  | Except.ok domains =>
    let publicDomains := domains.filterMap (fun domain =>
      let domainName := awsToString domain.DomainName
      match env.describeDomain domain.DomainName with
      | none => none
      | some detail =>
        match detail.VPCOptions with
        | none => some domainName
        | some opts =>
          if opts.SubnetIds.length = 0 then some domainName else none)
    if publicDomains.length > 0 then
      Except.ok {
        Control := "CC6.1"
        Name := "OpenSearch VPC Deployment"
        Status := "FAIL"
        Severity := "CRITICAL"
        Evidence := failEvidence publicDomains.length
          (" OpenSearch domains are publicly accessible (not in VPC): ") publicDomains
        Remediation := "Deploy OpenSearch domains within a VPC"
        RemediationDetail := "Create new domain in VPC. Note: Moving from public to VPC requires recreating the domain."
        ScreenshotGuide := "OpenSearch Console → Domains → Select domain → Network → Screenshot showing VPC configuration"
        ConsoleURL := "https://console.aws.amazon.com/aos/home#opensearch/domains"
        Priority := PriorityCritical
        Timestamp := now
        Frameworks := tbl ("OPENSEARCH_NETWORK") }
    else if domains.length = 0 then
      Except.ok {
        Control := "CC6.1"
        Name := "OpenSearch VPC Deployment"
        Status := "PASS"
        Evidence := "No OpenSearch domains found"
        Priority := PriorityInfo
        Timestamp := now
        Frameworks := tbl ("OPENSEARCH_NETWORK") }
    else
      Except.ok {
        Control := "CC6.1"
        Name := "OpenSearch VPC Deployment"
        Status := "PASS"
        Evidence := "All " ++ Nat.repr domains.length ++ " OpenSearch domains are deployed in VPC"
        Priority := PriorityInfo
        Timestamp := now
        Frameworks := tbl ("OPENSEARCH_NETWORK") }

def OpenSearchChecks.CheckAuditLogs (env : OpenSearchEnv) (now : Nat) :
    Except String CheckResult :=
  match env.listDomainNames with
  | Except.error e => Except.error e
  | Except.ok domains =>
    let noAuditLogs := domains.filterMap (fun domain =>
      let domainName := awsToString domain.DomainName
      match env.describeDomain domain.DomainName with
      | none => none
      | some detail =>
        match detail.LogPublishingOptions with
        | none => some domainName
        | some opts =>
          let auditLogEnabled := opts.any (fun p =>
            p.fst == "AUDIT_LOGS" && awsToBool p.snd.Enabled)
          if !auditLogEnabled then some domainName else none)
    if noAuditLogs.length > 0 then
      Except.ok {
        Control := "CC7.1"
        Name := "OpenSearch Audit Logs"
        Status := "FAIL"
        Severity := "HIGH"
        Evidence := failEvidence noAuditLogs.length
          (" OpenSearch domains without audit logging: ") noAuditLogs
        Remediation := "Enable audit logging for OpenSearch domains"
        RemediationDetail := "Configure log publishing options to enable AUDIT_LOGS to CloudWatch Logs"
        ScreenshotGuide := "OpenSearch Console → Domains → Select domain → Logs → Screenshot showing \x27Audit logs: Enabled\x27"
        ConsoleURL := "https://console.aws.amazon.com/aos/home#opensearch/domains"
        Priority := PriorityHigh
        Timestamp := now
        Frameworks := tbl ("OPENSEARCH_LOGGING") }
    else if domains.length = 0 then
      Except.ok {
        Control := "CC7.1"
        Name := "OpenSearch Audit Logs"
        Status := "PASS"
        Evidence := "No OpenSearch domains found"
        Priority := PriorityInfo
        Timestamp := now
        Frameworks := tbl ("OPENSEARCH_LOGGING") }
    else
      Except.ok {
        Control := "CC7.1"
        Name := "OpenSearch Audit Logs"
        Status := "PASS"
        Evidence := "All " ++ Nat.repr domains.length ++ " OpenSearch domains have audit logging enabled"
        Priority := PriorityInfo
        Timestamp := now
        Frameworks := tbl ("OPENSEARCH_LOGGING") }

def OpenSearchChecks.CheckFineGrainedAccessControl (env : OpenSearchEnv) (now : Nat) :
    Except String CheckResult :=
  match env.listDomainNames with
  | Except.error e => Except.error e
  | Except.ok domains =>
    let noFGAC := domains.filterMap (fun domain =>
      let domainName := awsToString domain.DomainName
      match env.describeDomain domain.DomainName with
      | none => none
      | some detail =>
        match detail.AdvancedSecurityOptions with
        | none => some domainName
        | some opts =>
          if !(awsToBool opts.Enabled) then some domainName else none)
    if noFGAC.length > 0 then
      Except.ok {
        Control := "CC6.6"
        Name := "OpenSearch Fine-Grained Access Control"
        Status := "FAIL"
        Severity := "HIGH"
        Evidence := failEvidence noFGAC.length
          (" OpenSearch domains without fine-grained access control: ") noFGAC
        Remediation := "Enable fine-grained access control for OpenSearch domains"
        RemediationDetail := "Enable Advanced Security Options with fine-grained access control. Requires encryption at rest and node-to-node encryption."
        ScreenshotGuide := "OpenSearch Console → Domains → Select domain → Security → Screenshot showing \x27Fine-grained access control: Enabled\x27"
        ConsoleURL := "https://console.aws.amazon.com/aos/home#opensearch/domains"
        Priority := PriorityHigh
        Timestamp := now
        Frameworks := tbl ("OPENSEARCH_ACCESS") }
    else if domains.length = 0 then
      Except.ok {
        Control := "CC6.6"
        Name := "OpenSearch Fine-Grained Access Control"
        Status := "PASS"
        Evidence := "No OpenSearch domains found"
        Priority := PriorityInfo
        Timestamp := now
        Frameworks := tbl ("OPENSEARCH_ACCESS") }
    else
      Except.ok {
        Control := "CC6.6"
        Name := "OpenSearch Fine-Grained Access Control"
        Status := "PASS"
        Evidence := "All " ++ Nat.repr domains.length ++ " OpenSearch domains have fine-grained access control enabled"
        Priority := PriorityInfo
        Timestamp := now
        Frameworks := tbl ("OPENSEARCH_ACCESS") }

end ChecksCorpus

/-- The result-collection step of every Checker.Run loop: a sub-check
result is appended if and only if its error is nil. -/
def runAppend (acc : List CheckResult) (r : Except String CheckResult) :
    List CheckResult :=
  match r with
  | Except.ok result => acc ++ [result]
  | Except.error _ => acc

section ChecksCorpus2

variable (tbl : String → List (String × String))

/-- OpenSearchChecks.Run: invokes the six sub-checks, keeping each
result whose error is nil, and always returns a nil checker error. -/
def OpenSearchChecks.Run (env : OpenSearchEnv) (now : Nat) :
    List CheckResult × Option String :=
  let results : List CheckResult := []
  let results := runAppend results (OpenSearchChecks.CheckEncryptionAtRest tbl env now)
  let results := runAppend results (OpenSearchChecks.CheckNodeToNodeEncryption tbl env now)
  let results := runAppend results (OpenSearchChecks.CheckHTTPS tbl env now)
  let results := runAppend results (OpenSearchChecks.CheckVPCDeployment tbl env now)
  let results := runAppend results (OpenSearchChecks.CheckAuditLogs tbl env now)
  let results := runAppend results (OpenSearchChecks.CheckFineGrainedAccessControl tbl env now)
  (results, none)

end ChecksCorpus2

/- ===================== ElastiCache (elasticache.go) ===================== -/

/-- One entry of a DescribeCacheClusters response, with the pointer
fields read by elasticache.go. -/
structure ECCacheCluster where
  CacheClusterId : Option String := none
  AtRestEncryptionEnabled : Option Bool := none
  TransitEncryptionEnabled : Option Bool := none
  AutoMinorVersionUpgrade : Option Bool := none
  deriving Repr, DecidableEq

/-- One entry of a DescribeReplicationGroups response, with the pointer
fields read by elasticache.go (SnapshotRetentionLimit is a *int32). -/
structure ECReplicationGroup where
  ReplicationGroupId : Option String := none
  AuthTokenEnabled : Option Bool := none
  SnapshotRetentionLimit : Option Int := none
  deriving Repr, DecidableEq

/-- The elasticache.Client as observed by ElastiCacheChecks. -/
structure ElastiCacheEnv where
  describeCacheClusters : Except String (List ECCacheCluster)
  describeReplicationGroups : Except String (List ECReplicationGroup)

section ChecksCorpus3

variable (tbl : String → List (String × String))

def ElastiCacheChecks.CheckEncryptionAtRest (env : ElastiCacheEnv) (now : Nat) :
    Except String CheckResult :=
  match env.describeCacheClusters with
  | Except.error e => Except.error e
  | Except.ok clusters =>
    let unencrypted := clusters.filterMap (fun cluster =>
      let clusterID := awsToString cluster.CacheClusterId
      if !(awsToBool cluster.AtRestEncryptionEnabled) then some clusterID else none)
    if unencrypted.length > 0 then
      Except.ok {
        Control := "CC6.3"
        Name := "ElastiCache Encryption at Rest"
        Status := "FAIL"
        Severity := "HIGH"
        Evidence := failEvidence unencrypted.length
          (" ElastiCache clusters without encryption at rest: ") unencrypted
        Remediation := "Enable encryption at rest for ElastiCache clusters"
        RemediationDetail := "Encryption at rest must be enabled when creating the cluster. Create new cluster with AtRestEncryptionEnabled=true and migrate data."
        ScreenshotGuide := "ElastiCache Console → Redis/Memcached → Select cluster → Description → Screenshot showing \x27Encryption at rest: Enabled\x27"
        ConsoleURL := "https://console.aws.amazon.com/elasticache/"
        Priority := PriorityHigh
        Timestamp := now
        Frameworks := tbl ("ELASTICACHE_ENCRYPTION") }
    else if clusters.length = 0 then
      Except.ok {
        Control := "CC6.3"
        Name := "ElastiCache Encryption at Rest"
        Status := "PASS"
        Evidence := "No ElastiCache clusters found"
        Priority := PriorityInfo
        Timestamp := now
        Frameworks := tbl ("ELASTICACHE_ENCRYPTION") }
    else
      Except.ok {
        Control := "CC6.3"
        Name := "ElastiCache Encryption at Rest"
        Status := "PASS"
        Evidence := "All " ++ Nat.repr clusters.length ++ " ElastiCache clusters have encryption at rest enabled"
        Priority := PriorityInfo
        Timestamp := now
        Frameworks := tbl ("ELASTICACHE_ENCRYPTION") }

def ElastiCacheChecks.CheckEncryptionInTransit (env : ElastiCacheEnv) (now : Nat) :
    Except String CheckResult :=
  match env.describeCacheClusters with
  | Except.error e => Except.error e
  | Except.ok clusters =>
    let noTransitEncryption := clusters.filterMap (fun cluster =>
      let clusterID := awsToString cluster.CacheClusterId
      if !(awsToBool cluster.TransitEncryptionEnabled) then some clusterID else none)
    if noTransitEncryption.length > 0 then
      Except.ok {
        Control := "CC6.4"
        Name := "ElastiCache Encryption in Transit"
        Status := "FAIL"
        Severity := "HIGH"
        Evidence := failEvidence noTransitEncryption.length
          (" ElastiCache clusters without encryption in transit: ") noTransitEncryption
        Remediation := "Enable encryption in transit (TLS) for ElastiCache clusters"
        RemediationDetail := "Transit encryption must be enabled when creating the cluster. Create new cluster with TransitEncryptionEnabled=true."
        ScreenshotGuide := "ElastiCache Console → Select cluster → Description → Screenshot showing \x27Encryption in transit: Enabled\x27"
        ConsoleURL := "https://console.aws.amazon.com/elasticache/"
        Priority := PriorityHigh
        Timestamp := now
        Frameworks := tbl ("ELASTICACHE_TRANSIT") }
    else if clusters.length = 0 then
      Except.ok {
        Control := "CC6.4"
        Name := "ElastiCache Encryption in Transit"
        Status := "PASS"
        Evidence := "No ElastiCache clusters found"
        Priority := PriorityInfo
        Timestamp := now
        Frameworks := tbl ("ELASTICACHE_TRANSIT") }
    else
      Except.ok {
        Control := "CC6.4"
        Name := "ElastiCache Encryption in Transit"
        Status := "PASS"
        Evidence := "All " ++ Nat.repr clusters.length ++ " ElastiCache clusters have encryption in transit enabled"
        Priority := PriorityInfo
        Timestamp := now
        Frameworks := tbl ("ELASTICACHE_TRANSIT") }

def ElastiCacheChecks.CheckAutoMinorVersionUpgrade (env : ElastiCacheEnv) (now : Nat) :
    Except String CheckResult :=
  match env.describeCacheClusters with
  | Except.error e => Except.error e
  | Except.ok clusters =>
    let noAutoUpgrade := clusters.filterMap (fun cluster =>
      let clusterID := awsToString cluster.CacheClusterId
      if !(awsToBool cluster.AutoMinorVersionUpgrade) then some clusterID else none)
    if noAutoUpgrade.length > 0 then
      Except.ok {
        Control := "CC7.5"
        Name := "ElastiCache Auto Minor Version Upgrade"
        Status := "FAIL"
        Severity := "MEDIUM"
        Evidence := failEvidence noAutoUpgrade.length
          (" ElastiCache clusters without auto minor version upgrade: ") noAutoUpgrade
        Remediation := "Enable auto minor version upgrade for ElastiCache clusters"
        RemediationDetail := "aws elasticache modify-cache-cluster --cache-cluster-id [CLUSTER_ID] --auto-minor-version-upgrade"
        ScreenshotGuide := "ElastiCache Console → Select cluster → Maintenance → Screenshot showing \x27Auto minor version upgrade: Yes\x27"
        ConsoleURL := "https://console.aws.amazon.com/elasticache/"
        Priority := PriorityMedium
        Timestamp := now
        Frameworks := tbl ("ELASTICACHE_PATCHING") }
    else if clusters.length = 0 then
      Except.ok {
        Control := "CC7.5"
        Name := "ElastiCache Auto Minor Version Upgrade"
        Status := "PASS"
        Evidence := "No ElastiCache clusters found"
        Priority := PriorityInfo
        Timestamp := now
        Frameworks := tbl ("ELASTICACHE_PATCHING") }
    else
      Except.ok {
        Control := "CC7.5"
        Name := "ElastiCache Auto Minor Version Upgrade"
        Status := "PASS"
        Evidence := "All " ++ Nat.repr clusters.length ++ " ElastiCache clusters have auto minor version upgrade enabled"
        Priority := PriorityInfo
        Timestamp := now
        Frameworks := tbl ("ELASTICACHE_PATCHING") }

def ElastiCacheChecks.CheckAuthToken (env : ElastiCacheEnv) (now : Nat) :
    Except String CheckResult :=
  match env.describeReplicationGroups with
  | Except.error e => Except.error e
  | Except.ok repGroups =>
    let noAuth := repGroups.filterMap (fun rg =>
      let rgID := awsToString rg.ReplicationGroupId
      if !(awsToBool rg.AuthTokenEnabled) then some rgID else none)
    if noAuth.length > 0 then
      Except.ok {
        Control := "CC6.6"
        Name := "ElastiCache Redis AUTH Token"
        Status := "FAIL"
        Severity := "HIGH"
        Evidence := failEvidence noAuth.length
          (" Redis replication groups without AUTH token: ") noAuth
        Remediation := "Enable AUTH token for Redis replication groups"
        RemediationDetail := "AUTH token must be enabled when creating the replication group. Create new group with AuthToken parameter set."
        ScreenshotGuide := "ElastiCache Console → Redis → Select replication group → Description → Screenshot showing \x27AUTH token: Enabled\x27"
        ConsoleURL := "https://console.aws.amazon.com/elasticache/home#redis:"
        Priority := PriorityHigh
        Timestamp := now
        Frameworks := tbl ("ELASTICACHE_AUTH") }
    else if repGroups.length = 0 then
      Except.ok {
        Control := "CC6.6"
        Name := "ElastiCache Redis AUTH Token"
        Status := "PASS"
        Evidence := "No Redis replication groups found"
        Priority := PriorityInfo
        Timestamp := now
        Frameworks := tbl ("ELASTICACHE_AUTH") }
    else
      Except.ok {
        Control := "CC6.6"
        Name := "ElastiCache Redis AUTH Token"
        Status := "PASS"
        Evidence := "All " ++ Nat.repr repGroups.length ++ " Redis replication groups have AUTH token enabled"
        Priority := PriorityInfo
        Timestamp := now
        Frameworks := tbl ("ELASTICACHE_AUTH") }

def ElastiCacheChecks.CheckBackupRetention (env : ElastiCacheEnv) (now : Nat) :
    Except String CheckResult :=
  match env.describeReplicationGroups with
  | Except.error e => Except.error e
  | Except.ok repGroups =>
    let lowRetention := repGroups.filterMap (fun rg =>
      let rgID := awsToString rg.ReplicationGroupId
      match rg.SnapshotRetentionLimit with
      | none => none
      | some lim =>
        if lim < 7 then some (rgID ++ " (" ++ toString lim ++ " days)") else none)
    if lowRetention.length > 0 then
      Except.ok {
        Control := "A1.2"
        Name := "ElastiCache Backup Retention"
        Status := "FAIL"
        Severity := "MEDIUM"
        Evidence := failEvidence lowRetention.length
          (" Redis groups with backup retention < 7 days: ") lowRetention
        Remediation := "Increase snapshot retention period to at least 7 days"
        RemediationDetail := "aws elasticache modify-replication-group --replication-group-id [GROUP_ID] --snapshot-retention-limit 7"
        ScreenshotGuide := "ElastiCache Console → Redis → Select group → Backup → Screenshot showing retention >= 7 days"
        ConsoleURL := "https://console.aws.amazon.com/elasticache/home#redis:"
        Priority := PriorityMedium
        Timestamp := now
        Frameworks := tbl ("ELASTICACHE_BACKUP") }
    else if repGroups.length = 0 then
      Except.ok {
        Control := "A1.2"
        Name := "ElastiCache Backup Retention"
        Status := "PASS"
        Evidence := "No Redis replication groups found"
        Priority := PriorityInfo
        Timestamp := now
        Frameworks := tbl ("ELASTICACHE_BACKUP") }
    else
      Except.ok {
        Control := "A1.2"
        Name := "ElastiCache Backup Retention"
        Status := "PASS"
        Evidence := "All " ++ Nat.repr repGroups.length ++ " Redis replication groups have adequate backup retention"
        Priority := PriorityInfo
        Timestamp := now
        Frameworks := tbl ("ELASTICACHE_BACKUP") }

/-- ElastiCacheChecks.Run: invokes the five sub-checks, keeping each
result whose error is nil, and always returns a nil checker error. -/
def ElastiCacheChecks.Run (env : ElastiCacheEnv) (now : Nat) :
    List CheckResult × Option String :=
  let results : List CheckResult := []
  let results := runAppend results (ElastiCacheChecks.CheckEncryptionAtRest tbl env now)
  let results := runAppend results (ElastiCacheChecks.CheckEncryptionInTransit tbl env now)
  let results := runAppend results (ElastiCacheChecks.CheckAutoMinorVersionUpgrade tbl env now)
  let results := runAppend results (ElastiCacheChecks.CheckAuthToken tbl env now)
  let results := runAppend results (ElastiCacheChecks.CheckBackupRetention tbl env now)
  (results, none)

end ChecksCorpus3

/- ===================== SageMaker (sagemaker.go) ===================== -/

structure SMNotebookSummary where
  NotebookInstanceName : Option String
  deriving Repr, DecidableEq

/-- DescribeNotebookInstance fields read by sagemaker.go
(DirectInternetAccess and RootAccess are string-valued enums). -/
structure SMNotebookDetail where
  KmsKeyId : Option String := none
  DirectInternetAccess : String := ""
  RootAccess : String := ""
  deriving Repr, DecidableEq

structure SMEndpointSummary where
  EndpointName : Option String
  deriving Repr, DecidableEq

structure SMEndpointDetail where
  EndpointConfigName : Option String := none
  deriving Repr, DecidableEq

structure SMEndpointConfigDetail where
  KmsKeyId : Option String := none
  deriving Repr, DecidableEq

structure SMTrainingJobSummary where
  TrainingJobName : Option String
  deriving Repr, DecidableEq

structure SMResourceConfig where
  VolumeKmsKeyId : Option String := none
  deriving Repr, DecidableEq

structure SMTrainingJobDetail where
  ResourceConfig : Option SMResourceConfig := none
  deriving Repr, DecidableEq

structure SMModelSummary where
  ModelName : Option String
  deriving Repr, DecidableEq

structure SMModelDetail where
  EnableNetworkIsolation : Option Bool := none
  deriving Repr, DecidableEq

/-- The sagemaker.Client as observed by SageMakerChecks.  The list
fields hold the responses of the four list calls (ListTrainingJobs and
ListModels are issued with MaxResults=100); each describe field maps
the request pointer to the call outcome, none modelling a discarded
error. -/
structure SageMakerEnv where
  listNotebookInstances : Except String (List SMNotebookSummary)
  describeNotebookInstance : Option String → Option SMNotebookDetail
  listEndpoints : Except String (List SMEndpointSummary)
  describeEndpoint : Option String → Option SMEndpointDetail
  describeEndpointConfig : Option String → Option SMEndpointConfigDetail
  listTrainingJobs : Except String (List SMTrainingJobSummary)
  describeTrainingJob : Option String → Option SMTrainingJobDetail
  listModels : Except String (List SMModelSummary)
  describeModel : Option String → Option SMModelDetail

section ChecksCorpus4

variable (tbl : String → List (String × String))

def SageMakerChecks.CheckNotebookEncryption (env : SageMakerEnv) (now : Nat) :
    Except String CheckResult :=
  match env.listNotebookInstances with
  | Except.error e => Except.error e
  | Except.ok notebooks =>
    let unencrypted := notebooks.filterMap (fun nb =>
      let nbName := awsToString nb.NotebookInstanceName
      match env.describeNotebookInstance nb.NotebookInstanceName with
      | none => none
      | some detail =>
        match detail.KmsKeyId with
        | none => some nbName
        | some k => if k = "" then some nbName else none)
    if unencrypted.length > 0 then
      Except.ok {
        Control := "CC6.3"
        Name := "SageMaker Notebook Encryption"
        Status := "FAIL"
        Severity := "HIGH"
        Evidence := failEvidence unencrypted.length
          (" notebooks without KMS encryption: ") unencrypted
        Remediation := "Enable KMS encryption for SageMaker notebooks"
        RemediationDetail := "Create new notebook instance with KMS key or recreate existing notebooks with encryption enabled"
        ScreenshotGuide := "SageMaker Console → Notebook instances → Select instance → Configuration → Screenshot showing KMS Key ARN"
        ConsoleURL := "https://console.aws.amazon.com/sagemaker/home#/notebook-instances"
        Priority := PriorityHigh
        Timestamp := now
        Frameworks := tbl ("SAGEMAKER_ENCRYPTION") }
    else if notebooks.length = 0 then
      Except.ok {
        Control := "CC6.3"
        Name := "SageMaker Notebook Encryption"
        Status := "PASS"
        Evidence := "No SageMaker notebooks found"
        Priority := PriorityInfo
        Timestamp := now
        Frameworks := tbl ("SAGEMAKER_ENCRYPTION") }
    else
      Except.ok {
        Control := "CC6.3"
        Name := "SageMaker Notebook Encryption"
        Status := "PASS"
        Evidence := "All " ++ Nat.repr notebooks.length ++ " notebooks are encrypted with KMS"
        Priority := PriorityInfo
        Timestamp := now
        Frameworks := tbl ("SAGEMAKER_ENCRYPTION") }

def SageMakerChecks.CheckNotebookDirectInternet (env : SageMakerEnv) (now : Nat) :
    Except String CheckResult :=
  match env.listNotebookInstances with
  | Except.error e => Except.error e
  | Except.ok notebooks =>
    let directInternet := notebooks.filterMap (fun nb =>
      let nbName := awsToString nb.NotebookInstanceName
      match env.describeNotebookInstance nb.NotebookInstanceName with
      | none => none
      | some detail =>
        if detail.DirectInternetAccess = "Enabled" then some nbName else none)
    if directInternet.length > 0 then
      Except.ok {
        Control := "CC6.1"
        Name := "SageMaker Direct Internet Access"
        Status := "FAIL"
        Severity := "MEDIUM"
        Evidence := failEvidence directInternet.length
          (" notebooks have direct internet access enabled: ") directInternet
        Remediation := "Disable direct internet access and use VPC for network isolation"
        RemediationDetail := "Recreate notebook instance in VPC with DirectInternetAccess=Disabled, use NAT gateway for outbound access"
        ScreenshotGuide := "SageMaker Console → Notebook → Network → Screenshot showing \x27Direct internet access: Disabled\x27"
        ConsoleURL := "https://console.aws.amazon.com/sagemaker/home#/notebook-instances"
        Priority := PriorityMedium
        Timestamp := now
        Frameworks := tbl ("SAGEMAKER_NETWORK") }
    else if notebooks.length = 0 then
      Except.ok {
        Control := "CC6.1"
        Name := "SageMaker Direct Internet Access"
        Status := "PASS"
        Evidence := "No SageMaker notebooks found"
        Priority := PriorityInfo
        Timestamp := now
        Frameworks := tbl ("SAGEMAKER_NETWORK") }
    else
      Except.ok {
        Control := "CC6.1"
        Name := "SageMaker Direct Internet Access"
        Status := "PASS"
        Evidence := "All " ++ Nat.repr notebooks.length ++ " notebooks have direct internet access disabled"
        Priority := PriorityInfo
        Timestamp := now
        Frameworks := tbl ("SAGEMAKER_NETWORK") }

def SageMakerChecks.CheckNotebookRootAccess (env : SageMakerEnv) (now : Nat) :
    Except String CheckResult :=
  match env.listNotebookInstances with
  | Except.error e => Except.error e
  | Except.ok notebooks =>
    let rootEnabled := notebooks.filterMap (fun nb =>
      let nbName := awsToString nb.NotebookInstanceName
      match env.describeNotebookInstance nb.NotebookInstanceName with
      | none => none
      | some detail =>
        if detail.RootAccess = "Enabled" then some nbName else none)
    if rootEnabled.length > 0 then
      Except.ok {
        Control := "CC6.6"
        Name := "SageMaker Root Access"
        Status := "FAIL"
        Severity := "MEDIUM"
        Evidence := failEvidence rootEnabled.length
          (" notebooks have root access enabled: ") rootEnabled
        Remediation := "Disable root access for notebook instances"
        RemediationDetail := "Update notebook instance to disable root access: aws sagemaker update-notebook-instance --notebook-instance-name NAME --root-access Disabled"
        ScreenshotGuide := "SageMaker Console → Notebook → Permissions → Screenshot showing \x27Root access: Disabled\x27"
        ConsoleURL := "https://console.aws.amazon.com/sagemaker/home#/notebook-instances"
        Priority := PriorityMedium
        Timestamp := now
        Frameworks := tbl ("SAGEMAKER_ACCESS") }
    else if notebooks.length = 0 then
      Except.ok {
        Control := "CC6.6"
        Name := "SageMaker Root Access"
        Status := "PASS"
        Evidence := "No SageMaker notebooks found"
        Priority := PriorityInfo
        Timestamp := now
        Frameworks := tbl ("SAGEMAKER_ACCESS") }
    else
      Except.ok {
        Control := "CC6.6"
        Name := "SageMaker Root Access"
        Status := "PASS"
        Evidence := "All " ++ Nat.repr notebooks.length ++ " notebooks have root access disabled"
        Priority := PriorityInfo
        Timestamp := now
        Frameworks := tbl ("SAGEMAKER_ACCESS") }

def SageMakerChecks.CheckEndpointEncryption (env : SageMakerEnv) (now : Nat) :
    Except String CheckResult :=
  match env.listEndpoints with
  | Except.error e => Except.error e
  | Except.ok endpoints =>
    let unencrypted := endpoints.filterMap (fun ep =>
      let epName := awsToString ep.EndpointName
      match env.describeEndpoint ep.EndpointName with
      | none => none
      | some detail =>
        match env.describeEndpointConfig detail.EndpointConfigName with
        | none => none
        | some configDetail =>
          match configDetail.KmsKeyId with
          | none => some epName
          | some k => if k = "" then some epName else none)
    if unencrypted.length > 0 then
      Except.ok {
        Control := "CC6.3"
        Name := "SageMaker Endpoint Encryption"
        Status := "FAIL"
        Severity := "HIGH"
        Evidence := failEvidence unencrypted.length
          (" endpoints without KMS encryption: ") unencrypted
        Remediation := "Enable KMS encryption for SageMaker endpoints"
        RemediationDetail := "Create new endpoint config with KmsKeyId specified, then update endpoint to use new config"
        ScreenshotGuide := "SageMaker Console → Endpoints → Select endpoint → Configuration → Screenshot showing KMS Key ARN"
        ConsoleURL := "https://console.aws.amazon.com/sagemaker/home#/endpoints"
        Priority := PriorityHigh
        Timestamp := now
        Frameworks := tbl ("SAGEMAKER_ENCRYPTION") }
    else if endpoints.length = 0 then
      Except.ok {
        Control := "CC6.3"
        Name := "SageMaker Endpoint Encryption"
        Status := "PASS"
        Evidence := "No SageMaker endpoints found"
        Priority := PriorityInfo
        Timestamp := now
        Frameworks := tbl ("SAGEMAKER_ENCRYPTION") }
    else
      Except.ok {
        Control := "CC6.3"
        Name := "SageMaker Endpoint Encryption"
        Status := "PASS"
        Evidence := "All " ++ Nat.repr endpoints.length ++ " endpoints are encrypted with KMS"
        Priority := PriorityInfo
        Timestamp := now
        Frameworks := tbl ("SAGEMAKER_ENCRYPTION") }

def SageMakerChecks.CheckTrainingJobEncryption (env : SageMakerEnv) (now : Nat) :
    Except String CheckResult :=
  match env.listTrainingJobs with
  | Except.error e => Except.error e
  | Except.ok jobs =>
    let unencrypted := jobs.filterMap (fun job =>
      let jobName := awsToString job.TrainingJobName
      match env.describeTrainingJob job.TrainingJobName with
      | none => none
      | some detail =>
        match detail.ResourceConfig with
        | none => none
        | some rc =>
          match rc.VolumeKmsKeyId with
          | none => some jobName
          | some k => if k = "" then some jobName else none)
    if unencrypted.length > 0 then
      Except.ok {
        Control := "CC6.3"
        Name := "SageMaker Training Job Encryption"
        Status := "FAIL"
        Severity := "MEDIUM"
        Evidence := failEvidence unencrypted.length
          (" training jobs without volume encryption: ") (truncateList unencrypted 5)
        Remediation := "Enable KMS encryption for training job volumes"
        RemediationDetail := "When creating training jobs, specify VolumeKmsKeyId in ResourceConfig"
        ScreenshotGuide := "SageMaker Console → Training jobs → Select job → Configuration → Screenshot showing encryption settings"
        ConsoleURL := "https://console.aws.amazon.com/sagemaker/home#/jobs"
        Priority := PriorityMedium
        Timestamp := now
        Frameworks := tbl ("SAGEMAKER_ENCRYPTION") }
    else if jobs.length = 0 then
      Except.ok {
        Control := "CC6.3"
        Name := "SageMaker Training Job Encryption"
        Status := "PASS"
        Evidence := "No SageMaker training jobs found"
        Priority := PriorityInfo
        Timestamp := now
        Frameworks := tbl ("SAGEMAKER_ENCRYPTION") }
    else
      Except.ok {
        Control := "CC6.3"
        Name := "SageMaker Training Job Encryption"
        Status := "PASS"
        Evidence := "All " ++ Nat.repr jobs.length ++ " recent training jobs have volume encryption enabled"
        Priority := PriorityInfo
        Timestamp := now
        Frameworks := tbl ("SAGEMAKER_ENCRYPTION") }

def SageMakerChecks.CheckModelNetworkIsolation (env : SageMakerEnv) (now : Nat) :
    Except String CheckResult :=
  match env.listModels with
  | Except.error e => Except.error e
  | Except.ok models =>
    let notIsolated := models.filterMap (fun model =>
      let modelName := awsToString model.ModelName
      match env.describeModel model.ModelName with
      | none => none
      | some detail =>
        match detail.EnableNetworkIsolation with
        | none => some modelName
        | some b => if !b then some modelName else none)
    if notIsolated.length > 0 then
      Except.ok {
        Control := "CC6.1"
        Name := "SageMaker Model Network Isolation"
        Status := "FAIL"
        Severity := "LOW"
        Evidence := failEvidence notIsolated.length
          (" models without network isolation: ") (truncateList notIsolated 5)
        Remediation := "Enable network isolation for SageMaker models"
        RemediationDetail := "When creating models, set EnableNetworkIsolation=true to prevent network access during inference"
        ScreenshotGuide := "SageMaker Console → Models → Select model → Network → Screenshot showing isolation settings"
        ConsoleURL := "https://console.aws.amazon.com/sagemaker/home#/models"
        Priority := PriorityLow
        Timestamp := now
        Frameworks := tbl ("SAGEMAKER_NETWORK") }
    else if models.length = 0 then
      Except.ok {
        Control := "CC6.1"
        Name := "SageMaker Model Network Isolation"
        Status := "PASS"
        Evidence := "No SageMaker models found"
        Priority := PriorityInfo
        Timestamp := now
        Frameworks := tbl ("SAGEMAKER_NETWORK") }
    else
      Except.ok {
        Control := "CC6.1"
        Name := "SageMaker Model Network Isolation"
        Status := "PASS"
        Evidence := "All " ++ Nat.repr models.length ++ " models have network isolation enabled"
        Priority := PriorityInfo
        Timestamp := now
        Frameworks := tbl ("SAGEMAKER_NETWORK") }

/-- SageMakerChecks.Run: invokes the six sub-checks, keeping each
result whose error is nil, and always returns a nil checker error. -/
def SageMakerChecks.Run (env : SageMakerEnv) (now : Nat) :
    List CheckResult × Option String :=
  let results : List CheckResult := []
  let results := runAppend results (SageMakerChecks.CheckNotebookEncryption tbl env now)
  let results := runAppend results (SageMakerChecks.CheckNotebookDirectInternet tbl env now)
  let results := runAppend results (SageMakerChecks.CheckNotebookRootAccess tbl env now)
  let results := runAppend results (SageMakerChecks.CheckEndpointEncryption tbl env now)
  let results := runAppend results (SageMakerChecks.CheckTrainingJobEncryption tbl env now)
  let results := runAppend results (SageMakerChecks.CheckModelNetworkIsolation tbl env now)
  (results, none)

end ChecksCorpus4

/- ============ Redshift (checks source embedded in RELEASE-v0.7.1.md) ============ -/

structure RSClusterParameterGroupStatus where
  ParameterGroupName : Option String := none
  deriving Repr, DecidableEq

/-- One entry of a DescribeClusters response, with the pointer fields
read by the Redshift checks (AutomatedSnapshotRetentionPeriod is a
*int32; ClusterParameterGroups is a possibly nil slice). -/
structure RSCluster where
  ClusterIdentifier : Option String := none
  Encrypted : Option Bool := none
  PubliclyAccessible : Option Bool := none
  AllowVersionUpgrade : Option Bool := none
  AutomatedSnapshotRetentionPeriod : Option Int := none
  EnhancedVpcRouting : Option Bool := none
  ClusterParameterGroups : Option (List RSClusterParameterGroupStatus) := none
  deriving Repr, DecidableEq

structure RSParameter where
  ParameterName : Option String := none
  ParameterValue : Option String := none
  deriving Repr, DecidableEq

structure RSLoggingStatus where
  LoggingEnabled : Option Bool := none
  deriving Repr, DecidableEq

/-- The redshift.Client as observed by RedshiftChecks.  The logging
status and parameter describes map the request pointer to the call
outcome; none models a call that returned an error (the logging check
treats such an error as "logging not enabled", the SSL check skips the
parameter group). -/
structure RedshiftEnv where
  describeClusters : Except String (List RSCluster)
  describeLoggingStatus : Option String → Option RSLoggingStatus
  describeClusterParameters : Option String → Option (List RSParameter)

section ChecksCorpus5

variable (tbl : String → List (String × String))

def RedshiftChecks.CheckClusterEncryption (env : RedshiftEnv) (now : Nat) :
    Except String CheckResult :=
  match env.describeClusters with
  | Except.error e => Except.error e
  | Except.ok clusters =>
    let unencrypted := clusters.filterMap (fun cluster =>
      let clusterID := awsToString cluster.ClusterIdentifier
      if !(awsToBool cluster.Encrypted) then some clusterID else none)
    if unencrypted.length > 0 then
      Except.ok {
        Control := "CC6.3"
        Name := "Redshift Cluster Encryption"
        Status := "FAIL"
        Severity := "CRITICAL"
        Evidence := failEvidence unencrypted.length
          (" Redshift clusters NOT encrypted: ") unencrypted
        Remediation := "Enable encryption for Redshift clusters"
        RemediationDetail := "1. Create snapshot of unencrypted cluster\n2. Restore snapshot with encryption enabled\n3. Update applications to use new endpoint\n4. Delete unencrypted cluster"
        ScreenshotGuide := "Redshift Console → Clusters → Select cluster → Properties → Screenshot showing \x27Encrypted: Yes\x27"
        ConsoleURL := "https://console.aws.amazon.com/redshiftv2/home#clusters"
        Priority := PriorityCritical
        Timestamp := now
        Frameworks := tbl ("REDSHIFT_ENCRYPTION") }
    else if clusters.length = 0 then
      Except.ok {
        Control := "CC6.3"
        Name := "Redshift Cluster Encryption"
        Status := "PASS"
        Evidence := "No Redshift clusters found"
        Priority := PriorityInfo
        Timestamp := now
        Frameworks := tbl ("REDSHIFT_ENCRYPTION") }
    else
      Except.ok {
        Control := "CC6.3"
        Name := "Redshift Cluster Encryption"
        Status := "PASS"
        Evidence := "All " ++ Nat.repr clusters.length ++ " Redshift clusters are encrypted"
        Priority := PriorityInfo
        Timestamp := now
        Frameworks := tbl ("REDSHIFT_ENCRYPTION") }

def RedshiftChecks.CheckClusterPublicAccess (env : RedshiftEnv) (now : Nat) :
    Except String CheckResult :=
  match env.describeClusters with
  | Except.error e => Except.error e
  | Except.ok clusters =>
    let publicClusters := clusters.filterMap (fun cluster =>
      let clusterID := awsToString cluster.ClusterIdentifier
      if awsToBool cluster.PubliclyAccessible then some clusterID else none)
    if publicClusters.length > 0 then
      Except.ok {
        Control := "CC6.1"
        Name := "Redshift Public Access"
        Status := "FAIL"
        Severity := "CRITICAL"
        Evidence := failEvidence publicClusters.length
          (" Redshift clusters are publicly accessible: ") publicClusters
        Remediation := "Disable public accessibility for Redshift clusters"
        RemediationDetail := "aws redshift modify-cluster --cluster-identifier [CLUSTER_ID] --no-publicly-accessible"
        ScreenshotGuide := "Redshift Console → Clusters → Select cluster → Properties → Screenshot showing \x27Publicly accessible: No\x27"
        ConsoleURL := "https://console.aws.amazon.com/redshiftv2/home#clusters"
        Priority := PriorityCritical
        Timestamp := now
        Frameworks := tbl ("REDSHIFT_NETWORK") }
    else if clusters.length = 0 then
      Except.ok {
        Control := "CC6.1"
        Name := "Redshift Public Access"
        Status := "PASS"
        Evidence := "No Redshift clusters found"
        Priority := PriorityInfo
        Timestamp := now
        Frameworks := tbl ("REDSHIFT_NETWORK") }
    else
      Except.ok {
        Control := "CC6.1"
        Name := "Redshift Public Access"
        Status := "PASS"
        Evidence := "All " ++ Nat.repr clusters.length ++ " Redshift clusters are private (not publicly accessible)"
        Priority := PriorityInfo
        Timestamp := now
        Frameworks := tbl ("REDSHIFT_NETWORK") }

def RedshiftChecks.CheckClusterLogging (env : RedshiftEnv) (now : Nat) :
    Except String CheckResult :=
  match env.describeClusters with
  | Except.error e => Except.error e
  | Except.ok clusters =>
    let noLogging := clusters.filterMap (fun cluster =>
      let clusterID := awsToString cluster.ClusterIdentifier
      match env.describeLoggingStatus cluster.ClusterIdentifier with
      | none => some clusterID
      | some logging =>
        if !(awsToBool logging.LoggingEnabled) then some clusterID else none)
    if noLogging.length > 0 then
      Except.ok {
        Control := "CC7.1"
        Name := "Redshift Audit Logging"
        Status := "FAIL"
        Severity := "HIGH"
        Evidence := failEvidence noLogging.length
          (" Redshift clusters without audit logging: ") noLogging
        Remediation := "Enable audit logging for Redshift clusters"
        RemediationDetail := "aws redshift enable-logging --cluster-identifier [CLUSTER_ID] --bucket-name [S3_BUCKET] --s3-key-prefix \x27redshift-logs/\x27"
        ScreenshotGuide := "Redshift Console → Clusters → Select cluster → Properties → Audit logging → Screenshot showing \x27Enabled\x27"
        ConsoleURL := "https://console.aws.amazon.com/redshiftv2/home#clusters"
        Priority := PriorityHigh
        Timestamp := now
        Frameworks := tbl ("REDSHIFT_LOGGING") }
    else if clusters.length = 0 then
      Except.ok {
        Control := "CC7.1"
        Name := "Redshift Audit Logging"
        Status := "PASS"
        Evidence := "No Redshift clusters found"
        Priority := PriorityInfo
        Timestamp := now
        Frameworks := tbl ("REDSHIFT_LOGGING") }
    else
      Except.ok {
        Control := "CC7.1"
        Name := "Redshift Audit Logging"
        Status := "PASS"
        Evidence := "All " ++ Nat.repr clusters.length ++ " Redshift clusters have audit logging enabled"
        Priority := PriorityInfo
        Timestamp := now
        Frameworks := tbl ("REDSHIFT_LOGGING") }

def RedshiftChecks.CheckClusterSSL (env : RedshiftEnv) (now : Nat) :
    Except String CheckResult :=
  match env.describeClusters with
  | Except.error e => Except.error e
  | Except.ok clusters =>
    let noSSL := clusters.foldl (fun acc cluster =>
      let clusterID := awsToString cluster.ClusterIdentifier
      match cluster.ClusterParameterGroups with
      | none => acc
      | some pgs =>
        pgs.foldl (fun acc2 pg =>
          let pgName := awsToString pg.ParameterGroupName
          match env.describeClusterParameters (some pgName) with
          | none => acc2
          | some params =>
            let sslRequired := params.any (fun param =>
              awsToString param.ParameterName == "require_ssl" &&
                awsToString param.ParameterValue == "true")
            if !sslRequired then acc2 ++ [clusterID] else acc2) acc) []
    if noSSL.length > 0 then
      Except.ok {
        Control := "CC6.4"
        Name := "Redshift SSL Required"
        Status := "FAIL"
        Severity := "HIGH"
        Evidence := failEvidence noSSL.length
          (" Redshift clusters do not require SSL: ") noSSL
        Remediation := "Enable require_ssl parameter for Redshift clusters"
        RemediationDetail := "1. Create/modify parameter group with require_ssl=true\n2. Associate parameter group with cluster\n3. Reboot cluster to apply changes"
        ScreenshotGuide := "Redshift Console → Parameter groups → Select group → Parameters → Screenshot showing \x27require_ssl: true\x27"
        ConsoleURL := "https://console.aws.amazon.com/redshiftv2/home#parameter-groups"
        Priority := PriorityHigh
        Timestamp := now
        Frameworks := tbl ("REDSHIFT_SSL") }
    else if clusters.length = 0 then
      Except.ok {
        Control := "CC6.4"
        Name := "Redshift SSL Required"
        Status := "PASS"
        Evidence := "No Redshift clusters found"
        Priority := PriorityInfo
        Timestamp := now
        Frameworks := tbl ("REDSHIFT_SSL") }
    else
      Except.ok {
        Control := "CC6.4"
        Name := "Redshift SSL Required"
        Status := "PASS"
        Evidence := "All " ++ Nat.repr clusters.length ++ " Redshift clusters require SSL connections"
        Priority := PriorityInfo
        Timestamp := now
        Frameworks := tbl ("REDSHIFT_SSL") }

def RedshiftChecks.CheckClusterVersionUpgrade (env : RedshiftEnv) (now : Nat) :
    Except String CheckResult :=
  match env.describeClusters with
  | Except.error e => Except.error e
  | Except.ok clusters =>
    let noAutoUpgrade := clusters.filterMap (fun cluster =>
      let clusterID := awsToString cluster.ClusterIdentifier
      if !(awsToBool cluster.AllowVersionUpgrade) then some clusterID else none)
    if noAutoUpgrade.length > 0 then
      Except.ok {
        Control := "CC7.5"
        Name := "Redshift Auto Version Upgrade"
        Status := "FAIL"
        Severity := "MEDIUM"
        Evidence := failEvidence noAutoUpgrade.length
          (" Redshift clusters have auto version upgrade disabled: ") noAutoUpgrade
        Remediation := "Enable automatic version upgrades for Redshift clusters"
        RemediationDetail := "aws redshift modify-cluster --cluster-identifier [CLUSTER_ID] --allow-version-upgrade"
        ScreenshotGuide := "Redshift Console → Clusters → Select cluster → Maintenance → Screenshot showing \x27Allow version upgrade: Yes\x27"
        ConsoleURL := "https://console.aws.amazon.com/redshiftv2/home#clusters"
        Priority := PriorityMedium
        Timestamp := now
        Frameworks := tbl ("REDSHIFT_PATCHING") }
    else if clusters.length = 0 then
      Except.ok {
        Control := "CC7.5"
        Name := "Redshift Auto Version Upgrade"
        Status := "PASS"
        Evidence := "No Redshift clusters found"
        Priority := PriorityInfo
        Timestamp := now
        Frameworks := tbl ("REDSHIFT_PATCHING") }
    else
      Except.ok {
        Control := "CC7.5"
        Name := "Redshift Auto Version Upgrade"
        Status := "PASS"
        Evidence := "All " ++ Nat.repr clusters.length ++ " Redshift clusters have auto version upgrade enabled"
        Priority := PriorityInfo
        Timestamp := now
        Frameworks := tbl ("REDSHIFT_PATCHING") }

def RedshiftChecks.CheckClusterBackupRetention (env : RedshiftEnv) (now : Nat) :
    Except String CheckResult :=
  match env.describeClusters with
  | Except.error e => Except.error e
  | Except.ok clusters =>
    let lowRetention := clusters.filterMap (fun cluster =>
      let clusterID := awsToString cluster.ClusterIdentifier
      match cluster.AutomatedSnapshotRetentionPeriod with
      | none => none
      | some p =>
        if p < 7 then some (clusterID ++ " (" ++ toString p ++ " days)") else none)
    if lowRetention.length > 0 then
      Except.ok {
        Control := "A1.2"
        Name := "Redshift Backup Retention"
        Status := "FAIL"
        Severity := "MEDIUM"
        Evidence := failEvidence lowRetention.length
          (" Redshift clusters with backup retention < 7 days: ") lowRetention
        Remediation := "Increase automated snapshot retention period to at least 7 days"
        RemediationDetail := "aws redshift modify-cluster --cluster-identifier [CLUSTER_ID] --automated-snapshot-retention-period 7"
        ScreenshotGuide := "Redshift Console → Clusters → Select cluster → Backup → Screenshot showing retention period >= 7 days"
        ConsoleURL := "https://console.aws.amazon.com/redshiftv2/home#clusters"
        Priority := PriorityMedium
        Timestamp := now
        Frameworks := tbl ("REDSHIFT_BACKUP") }
    else if clusters.length = 0 then
      Except.ok {
        Control := "A1.2"
        Name := "Redshift Backup Retention"
        Status := "PASS"
        Evidence := "No Redshift clusters found"
        Priority := PriorityInfo
        Timestamp := now
        Frameworks := tbl ("REDSHIFT_BACKUP") }
    else
      Except.ok {
        Control := "A1.2"
        Name := "Redshift Backup Retention"
        Status := "PASS"
        Evidence := "All " ++ Nat.repr clusters.length ++ " Redshift clusters have adequate backup retention (>= 7 days)"
        Priority := PriorityInfo
        Timestamp := now
        Frameworks := tbl ("REDSHIFT_BACKUP") }

def RedshiftChecks.CheckClusterEnhancedVPCRouting (env : RedshiftEnv) (now : Nat) :
    Except String CheckResult :=
  match env.describeClusters with
  | Except.error e => Except.error e
  | Except.ok clusters =>
    let noEnhancedRouting := clusters.filterMap (fun cluster =>
      let clusterID := awsToString cluster.ClusterIdentifier
      if !(awsToBool cluster.EnhancedVpcRouting) then some clusterID else none)
    if noEnhancedRouting.length > 0 then
      Except.ok {
        Control := "CC6.1"
        Name := "Redshift Enhanced VPC Routing"
        Status := "FAIL"
        Severity := "MEDIUM"
        Evidence := failEvidence noEnhancedRouting.length
          (" Redshift clusters without enhanced VPC routing: ") noEnhancedRouting
        Remediation := "Enable enhanced VPC routing for better network security"
        RemediationDetail := "aws redshift modify-cluster --cluster-identifier [CLUSTER_ID] --enhanced-vpc-routing\nNote: This causes brief cluster unavailability"
        ScreenshotGuide := "Redshift Console → Clusters → Select cluster → Properties → Network → Screenshot showing \x27Enhanced VPC routing: Enabled\x27"
        ConsoleURL := "https://console.aws.amazon.com/redshiftv2/home#clusters"
        Priority := PriorityMedium
        Timestamp := now
        Frameworks := tbl ("REDSHIFT_NETWORK") }
    else if clusters.length = 0 then
      Except.ok {
        Control := "CC6.1"
        Name := "Redshift Enhanced VPC Routing"
        Status := "PASS"
        Evidence := "No Redshift clusters found"
        Priority := PriorityInfo
        Timestamp := now
        Frameworks := tbl ("REDSHIFT_NETWORK") }
    else
      Except.ok {
        Control := "CC6.1"
        Name := "Redshift Enhanced VPC Routing"
        Status := "PASS"
        Evidence := "All " ++ Nat.repr clusters.length ++ " Redshift clusters have enhanced VPC routing enabled"
        Priority := PriorityInfo
        Timestamp := now
        Frameworks := tbl ("REDSHIFT_NETWORK") }

/-- RedshiftChecks.Run: invokes the seven sub-checks, keeping each
result whose error is nil, and always returns a nil checker error. -/
def RedshiftChecks.Run (env : RedshiftEnv) (now : Nat) :
    List CheckResult × Option String :=
  let results : List CheckResult := []
  let results := runAppend results (RedshiftChecks.CheckClusterEncryption tbl env now)
  let results := runAppend results (RedshiftChecks.CheckClusterPublicAccess tbl env now)
  let results := runAppend results (RedshiftChecks.CheckClusterLogging tbl env now)
  let results := runAppend results (RedshiftChecks.CheckClusterSSL tbl env now)
  let results := runAppend results (RedshiftChecks.CheckClusterVersionUpgrade tbl env now)
  let results := runAppend results (RedshiftChecks.CheckClusterBackupRetention tbl env now)
  let results := runAppend results (RedshiftChecks.CheckClusterEnhancedVPCRouting tbl env now)
  (results, none)

end ChecksCorpus5

/- ===================== Offline cache (offline/cache.go) ===================== -/

/-- A cached control result (cache.go CachedControl). -/
structure CachedControl where
  ID : String := ""
  Name : String := ""
  Category : String := ""
  Severity : String := ""
  Status : String := ""
  Evidence : String := ""
  Remediation : String := ""
  RemediationDetail : String := ""
  Priority : String := ""
  Impact : String := ""
  ScreenshotGuide : String := ""
  ConsoleURL : String := ""
  Frameworks : List (String × String) := []
  deriving Repr, DecidableEq

/-- A cached scan result (cache.go CachedScan).  Go time.Time is
modelled as seconds since epoch, float64 Score as a rational. -/
structure CachedScan where
  Timestamp : Nat := 0
  Provider : String := ""
  Framework : String := ""
  AccountID : String := ""
  Score : Rat := 0
  TotalControls : Int := 0
  PassedControls : Int := 0
  FailedControls : Int := 0
  Controls : List CachedControl := []
  Recommendations : List String := []
  Version : String := ""
  deriving Repr, DecidableEq

/-- The cache directory contents: path to parsed file content.  The
encoding/json marshal and unmarshal pair applied by cache.go is library
code outside the corpus and round-trips this record; file contents are
therefore modelled by the parsed CachedScan value itself, so that Save
and the Load functions carry exactly the keying and file layout logic
of cache.go. -/
abbrev FileSys := List (String × CachedScan)

/-- os.WriteFile: create or overwrite the file at the given path. -/
def writeFile (fs : FileSys) (path : String) (data : CachedScan) : FileSys :=
  (path, data) :: fs

/-- os.ReadFile: the content of the file, or none when it does not exist. -/
def readFile (fs : FileSys) (path : String) : Option CachedScan :=
  fs.lookup path

/-- filepath.Join for one base directory and one file name. -/
def filepathJoin (base name : String) : String :=
  base ++ "/" ++ name

/-- The Cache manager: a base directory. -/
structure Cache where
  basePath : String

/-- Go timestamp.Format("20060102-150405") as used in scan file names;
the exact layout text is opaque to every claim, so the instant is
rendered as its decimal value. -/
def formatScanTimestamp (t : Nat) : String :=
  Nat.repr t

/-- cache.go getScanFilename: "scan-%s-%s-%s-%s.json" over provider,
account, framework and the formatted timestamp. -/
def Cache.getScanFilename (_c : Cache) (provider accountID framework : String)
    (timestamp : Nat) : String :=
  "scan-" ++ provider ++ "-" ++ accountID ++ "-" ++ framework ++ "-" ++
    formatScanTimestamp timestamp ++ ".json"

/-- cache.go getLatestFilename: "latest-%s-%s-%s.json". -/
def Cache.getLatestFilename (_c : Cache) (provider accountID framework : String) :
    String :=
  "latest-" ++ provider ++ "-" ++ accountID ++ "-" ++ framework ++ ".json"

/-- cache.go Cache.Save: write the scan under its timestamped file name,
then overwrite the "latest" file for the same (provider, account,
framework) key with the same data. -/
def Cache.Save (c : Cache) (fs : FileSys) (scan : CachedScan) : FileSys :=
  let filename := c.getScanFilename scan.Provider scan.AccountID scan.Framework scan.Timestamp
  let scanPath := filepathJoin c.basePath filename
  let fs := writeFile fs scanPath scan
  let latestPath := filepathJoin c.basePath
    (c.getLatestFilename scan.Provider scan.AccountID scan.Framework)
  writeFile fs latestPath scan

/-- cache.go Cache.loadFromFile: read and parse one cache file,
reporting a missing file as an explicit error. -/
def Cache.loadFromFile (_c : Cache) (fs : FileSys) (filePath : String) :
    Except String CachedScan :=
  match readFile fs filePath with
  | none => Except.error ("no cached scan found at " ++ filePath)
  | some scan => Except.ok scan

/-- cache.go Cache.LoadLatest: read back the "latest" file for the
(provider, account, framework) key. -/
def Cache.LoadLatest (c : Cache) (fs : FileSys) (provider accountID framework : String) :
    Except String CachedScan :=
  c.loadFromFile fs
    (filepathJoin c.basePath (c.getLatestFilename provider accountID framework))

/-- One entry of an os.ReadDir listing as consumed by cache.go. -/
structure DirEntry where
  name : String
  isDir : Bool
  size : Nat
  deriving Repr, DecidableEq

/-- Go s[:n]: the first n bytes of the string, or a panic (modelled as
none) when n exceeds its length.  Cache file names are ASCII, so bytes
and characters coincide. -/
def goStringSliceTo (s : String) (n : Nat) : Option String :=
  if n ≤ s.length then some ((s.toList.take n).asString) else none

/-- filepath.Ext: the suffix of the name starting at its final dot,
empty when the name has no dot (cache entry names contain no path
separator). -/
def filepathExt (name : String) : String :=
  if name.toList.contains '.' then
    "." ++ ((name.toList.reverse.takeWhile (fun c => c ≠ '.')).reverse.asString)
  else ""

/-- One row of the "scans" listing assembled by GetCacheInfo. -/
structure ScanInfoEntry where
  filename : String
  provider : String
  framework : String
  account : String
  timestamp : Nat
  score : Rat
  size : Nat
  deriving Repr, DecidableEq

/-- The GetCacheInfo result (the Go map with keys cache_path,
total_files, scans). -/
structure CacheInfo where
  cachePath : String
  totalFiles : Nat
  scans : List ScanInfoEntry
  deriving Repr, DecidableEq

/-- The loop body of cache.go Cache.GetCacheInfo over the directory
listing: skip directories, skip names whose extension is not ".json",
skip names whose first six bytes are "latest" — a slice taken with
entry.Name()[:6], which panics (none) on a shorter name — skip files
that fail to load, and collect a row per remaining scan file. -/
def getCacheInfoScans (c : Cache) (fs : FileSys) :
    List DirEntry → Option (List ScanInfoEntry)
  | [] => some []
  | entry :: rest =>
    if entry.isDir then getCacheInfoScans c fs rest
    else if filepathExt entry.name ≠ ".json" then getCacheInfoScans c fs rest
    else
      match goStringSliceTo entry.name 6 with
      | none => none
      | some first6 =>
        if first6 = "latest" then getCacheInfoScans c fs rest
        else
          match c.loadFromFile fs (filepathJoin c.basePath entry.name) with
          | Except.error _ => getCacheInfoScans c fs rest
          | Except.ok scan =>
            (getCacheInfoScans c fs rest).map (fun tailRows =>
              { filename := entry.name
                provider := scan.Provider
                framework := scan.Framework
                account := scan.AccountID
                timestamp := scan.Timestamp
                score := scan.Score
                size := entry.size } :: tailRows)

/-- cache.go Cache.GetCacheInfo: cache path, total file count, and the
collected scan rows; none models the out-of-range panic raised while
slicing a short file name. -/
def Cache.GetCacheInfo (c : Cache) (fs : FileSys) (entries : List DirEntry) :
    Option CacheInfo :=
  (getCacheInfoScans c fs entries).map (fun scans =>
    { cachePath := c.basePath
      totalFiles := entries.length
      scans := scans })

/-- The loop body of cache.go Cache.ClearOlderThan: skip directories,
skip names whose first six bytes are "latest" — again a slice
entry.Name()[:6] that panics (none) on a shorter name — skip files that
fail to load, and remove (count) every scan whose timestamp is before
the cutoff. -/
def clearOlderThanLoop (c : Cache) (fs : FileSys) (cutoff : Nat) :
    List DirEntry → Option Nat
  | [] => some 0
  | entry :: rest =>
    if entry.isDir then clearOlderThanLoop c fs cutoff rest
    else
      match goStringSliceTo entry.name 6 with
      | none => none
      | some first6 =>
        if first6 = "latest" then clearOlderThanLoop c fs cutoff rest
        else
          match c.loadFromFile fs (filepathJoin c.basePath entry.name) with
          | Except.error _ => clearOlderThanLoop c fs cutoff rest
          | Except.ok scan =>
            if scan.Timestamp < cutoff then
              (clearOlderThanLoop c fs cutoff rest).map (fun n => n + 1)
            else clearOlderThanLoop c fs cutoff rest

/-- cache.go Cache.ClearOlderThan: the number of removed scan files for
a cutoff of now minus the duration; none models the out-of-range panic
raised while slicing a short file name. -/
def Cache.ClearOlderThan (c : Cache) (fs : FileSys) (entries : List DirEntry)
    (now duration : Nat) : Option Nat :=
  clearOlderThanLoop c fs (now - duration) entries

/- ============ Collapsing and scoring engine (spec sections 4.3 and 4.4) ============ -/

/-- Modelled from the spec: the Status values of the collapsing stage
("PASS | FAIL | WARN | MANUAL | INFO"); the RequirementCollapser and
ScoreAggregator components are described by the specification but their
code is outside the corpus. -/
inductive VerdictStatus where
  | PASS
  | FAIL
  | WARN
  | MANUAL
  | INFO
  deriving Repr, DecidableEq

/-- Modelled from the spec: the precedence order of section 4.3 step 2,
"FAIL dominates over WARN, which dominates over MANUAL, which dominates
over PASS/INFO" — PASS and INFO share the lowest class. -/
def statusRank : VerdictStatus → Nat
  | VerdictStatus.FAIL => 3
  | VerdictStatus.WARN => 2
  | VerdictStatus.MANUAL => 1
  | VerdictStatus.PASS => 0
  | VerdictStatus.INFO => 0

/-- Modelled from the spec: the canonical status of each precedence
class (PASS representing the PASS/INFO class). -/
def statusOfRank (r : Nat) : VerdictStatus :=
  if r = 3 then VerdictStatus.FAIL
  else if r = 2 then VerdictStatus.WARN
  else if r = 1 then VerdictStatus.MANUAL
  else VerdictStatus.PASS

/-- Modelled from the spec, section 4.3: the Status of a
RequirementVerdict bucket is the highest-precedence Status among its
contributing CheckResults; a bucket with zero contributors is MANUAL
(step 5). -/
def collapseStatus (contributors : List VerdictStatus) : VerdictStatus :=
  match contributors with
  | [] => VerdictStatus.MANUAL
  | _ => statusOfRank ((contributors.map statusRank).foldl Nat.max 0)

/-- Modelled from the spec, section 4.4: passed_requirements counts
bucket Status=PASS. -/
def passedRequirements (verdicts : List VerdictStatus) : Nat :=
  verdicts.count VerdictStatus.PASS

/-- Modelled from the spec, section 4.4: manual_requirements counts
bucket Status=MANUAL. -/
def manualRequirements (verdicts : List VerdictStatus) : Nat :=
  verdicts.count VerdictStatus.MANUAL

/-- Modelled from the spec, section 4.4: total number of requirement
buckets. -/
def totalRequirements (verdicts : List VerdictStatus) : Nat :=
  verdicts.length

/-- Modelled from the spec, section 4.4:
Score = 100 * passed_requirements / (total_requirements -
manual_requirements), with an explicit sentinel (none) instead of a
division by a zero denominator. -/
def complianceScore (verdicts : List VerdictStatus) : Option Rat :=
  let denom := totalRequirements verdicts - manualRequirements verdicts
  if denom = 0 then none
  else some (100 * (passedRequirements verdicts : Rat) / (denom : Rat))

/- ===================== Concrete instances and predicates ===================== -/

/-- A check outcome is a vacuous pass: a successful result whose Status
is PASS, whose Priority is PriorityInfo, and whose Evidence is the
stated "no resources found" text. -/
def vacuousOK (x : Except String CheckResult) (ev : String) : Prop :=
  ∃ r, x = Except.ok r ∧ r.Status = "PASS" ∧ r.Priority = PriorityInfo ∧
    r.Evidence = ev

/-- An empty framework mapping table (Lookup of an unknown key returns
the empty set). -/
def tblEmpty : String → List (String × String) := fun _ => []

/-- Scenario A of the spec: three Redshift clusters of which exactly one,
cluster-a, is unencrypted. -/
def rsEnvScenarioA : RedshiftEnv :=
  { describeClusters := Except.ok [
      { ClusterIdentifier := some ("cluster-a"), Encrypted := some false },
      { ClusterIdentifier := some ("cluster-b"), Encrypted := some true },
      { ClusterIdentifier := some ("cluster-c"), Encrypted := some true } ]
    describeLoggingStatus := fun _ => none
    describeClusterParameters := fun _ => none }

/-- An OpenSearch account with one domain whose describe shows no
encryption-at-rest options. -/
def osEnvOneUnencrypted : OpenSearchEnv :=
  { listDomainNames := Except.ok [ { DomainName := some ("dom-a") } ]
    describeDomain := fun _ => some {} }

/-- The result of the OpenSearch encryption-at-rest check on
osEnvOneUnencrypted. -/
def osFailRes : CheckResult :=
  (OpenSearchChecks.CheckEncryptionAtRest tblEmpty osEnvOneUnencrypted 0).toOption.getD default

/-- A SageMaker account in which the ListNotebookInstances call is
denied while the other list calls succeed with empty results. -/
def smEnvNotebookDenied : SageMakerEnv :=
  { listNotebookInstances := Except.error ("AccessDenied: not authorized to perform sagemaker:ListNotebookInstances")
    describeNotebookInstance := fun _ => none
    listEndpoints := Except.ok []
    describeEndpoint := fun _ => none
    describeEndpointConfig := fun _ => none
    listTrainingJobs := Except.ok []
    describeTrainingJob := fun _ => none
    listModels := Except.ok []
    describeModel := fun _ => none }

/-- A SageMaker account whose notebook instances and training jobs are
named by the given list and are all unencrypted (no KMS key anywhere). -/
def smEnvAllUnencrypted (xs : List String) : SageMakerEnv :=
  { listNotebookInstances := Except.ok (xs.map (fun s => { NotebookInstanceName := some s }))
    describeNotebookInstance := fun _ => some { KmsKeyId := none }
    listEndpoints := Except.ok []
    describeEndpoint := fun _ => none
    describeEndpointConfig := fun _ => none
    listTrainingJobs := Except.ok (xs.map (fun s => { TrainingJobName := some s }))
    describeTrainingJob := fun _ => some { ResourceConfig := some { VolumeKmsKeyId := none } }
    listModels := Except.ok []
    describeModel := fun _ => none }

/-- Six resource names, one more than the display budget of the
truncating checks. -/
def sixNames : List String := ["n1", "n2", "n3", "n4", "n5", "n6"]

/-- An OpenSearch account whose ListDomainNames call is denied. -/
def osEnvListDenied : OpenSearchEnv :=
  { listDomainNames := Except.error ("AccessDenied: not authorized to perform es:ListDomainNames")
    describeDomain := fun _ => none }

/-- The violating-resource loop of OpenSearchChecks.CheckEncryptionAtRest, as a standalone
function of the same inputs, for stating the FAIL-Evidence invariant. -/
def osUnencryptedAtRestDomains (env : OpenSearchEnv) (domains : List OSDomainInfo) : List String :=
  domains.filterMap (fun domain =>
    match env.describeDomain domain.DomainName with
    | none => none
    | some detail =>
      match detail.EncryptionAtRestOptions with
      | none => some (awsToString domain.DomainName)
      | some opts =>
        if !(awsToBool opts.Enabled) then some (awsToString domain.DomainName) else none)

/-- The violating-resource loop of OpenSearchChecks.CheckNodeToNodeEncryption, as a standalone
function of the same inputs, for stating the FAIL-Evidence invariant. -/
def osNoNodeEncryptionDomains (env : OpenSearchEnv) (domains : List OSDomainInfo) : List String :=
  domains.filterMap (fun domain =>
    match env.describeDomain domain.DomainName with
    | none => none
    | some detail =>
      match detail.NodeToNodeEncryptionOptions with
      | none => some (awsToString domain.DomainName)
      | some opts =>
        if !(awsToBool opts.Enabled) then some (awsToString domain.DomainName) else none)

/-- The violating-resource loop of OpenSearchChecks.CheckHTTPS, as a standalone
function of the same inputs, for stating the FAIL-Evidence invariant. -/
def osNoHTTPSDomains (env : OpenSearchEnv) (domains : List OSDomainInfo) : List String :=
  domains.filterMap (fun domain =>
    match env.describeDomain domain.DomainName with
    | none => none
    | some detail =>
      match detail.DomainEndpointOptions with
      | none => some (awsToString domain.DomainName)
      | some opts =>
        if !(awsToBool opts.EnforceHTTPS) then some (awsToString domain.DomainName) else none)

/-- The violating-resource loop of OpenSearchChecks.CheckVPCDeployment, as a standalone
function of the same inputs, for stating the FAIL-Evidence invariant. -/
def osPublicDomains (env : OpenSearchEnv) (domains : List OSDomainInfo) : List String :=
  domains.filterMap (fun domain =>
    match env.describeDomain domain.DomainName with
    | none => none
    | some detail =>
      match detail.VPCOptions with
      | none => some (awsToString domain.DomainName)
      | some opts =>
        if opts.SubnetIds.length = 0 then some (awsToString domain.DomainName) else none)

/-- The violating-resource loop of OpenSearchChecks.CheckAuditLogs, as a standalone
function of the same inputs, for stating the FAIL-Evidence invariant. -/
def osNoAuditLogDomains (env : OpenSearchEnv) (domains : List OSDomainInfo) : List String :=
  domains.filterMap (fun domain =>
    match env.describeDomain domain.DomainName with
    | none => none
    | some detail =>
      match detail.LogPublishingOptions with
      | none => some (awsToString domain.DomainName)
      | some opts =>
        if !(opts.any (fun p =>
            p.fst == "AUDIT_LOGS" && awsToBool p.snd.Enabled)) then
          some (awsToString domain.DomainName)
        else none)

/-- The violating-resource loop of OpenSearchChecks.CheckFineGrainedAccessControl, as a standalone
function of the same inputs, for stating the FAIL-Evidence invariant. -/
def osNoFGACDomains (env : OpenSearchEnv) (domains : List OSDomainInfo) : List String :=
  domains.filterMap (fun domain =>
    match env.describeDomain domain.DomainName with
    | none => none
    | some detail =>
      match detail.AdvancedSecurityOptions with
      | none => some (awsToString domain.DomainName)
      | some opts =>
        if !(awsToBool opts.Enabled) then some (awsToString domain.DomainName) else none)

/-- The violating-resource loop of ElastiCacheChecks.CheckEncryptionAtRest, as a standalone
function of the same inputs, for stating the FAIL-Evidence invariant. -/
def ecUnencryptedClusters (clusters : List ECCacheCluster) : List String :=
  clusters.filterMap (fun cluster =>
    if !(awsToBool cluster.AtRestEncryptionEnabled) then
      some (awsToString cluster.CacheClusterId)
    else none)

/-- The violating-resource loop of ElastiCacheChecks.CheckEncryptionInTransit, as a standalone
function of the same inputs, for stating the FAIL-Evidence invariant. -/
def ecNoTransitClusters (clusters : List ECCacheCluster) : List String :=
  clusters.filterMap (fun cluster =>
    if !(awsToBool cluster.TransitEncryptionEnabled) then
      some (awsToString cluster.CacheClusterId)
    else none)

/-- The violating-resource loop of ElastiCacheChecks.CheckAutoMinorVersionUpgrade, as a standalone
function of the same inputs, for stating the FAIL-Evidence invariant. -/
def ecNoAutoUpgradeClusters (clusters : List ECCacheCluster) : List String :=
  clusters.filterMap (fun cluster =>
    if !(awsToBool cluster.AutoMinorVersionUpgrade) then
      some (awsToString cluster.CacheClusterId)
    else none)

/-- The violating-resource loop of ElastiCacheChecks.CheckAuthToken, as a standalone
function of the same inputs, for stating the FAIL-Evidence invariant. -/
def ecNoAuthGroups (repGroups : List ECReplicationGroup) : List String :=
  repGroups.filterMap (fun rg =>
    if !(awsToBool rg.AuthTokenEnabled) then
      some (awsToString rg.ReplicationGroupId)
    else none)

/-- The violating-resource loop of ElastiCacheChecks.CheckBackupRetention, as a standalone
function of the same inputs, for stating the FAIL-Evidence invariant. -/
def ecLowRetentionGroups (repGroups : List ECReplicationGroup) : List String :=
  repGroups.filterMap (fun rg =>
    match rg.SnapshotRetentionLimit with
    | none => none
    | some lim =>
      if lim < 7 then
        some (awsToString rg.ReplicationGroupId ++ " (" ++ toString lim ++ " days)")
      else none)

/-- The violating-resource loop of SageMakerChecks.CheckNotebookEncryption, as a standalone
function of the same inputs, for stating the FAIL-Evidence invariant. -/
def smUnencryptedNotebooks (env : SageMakerEnv) (notebooks : List SMNotebookSummary) : List String :=
  notebooks.filterMap (fun nb =>
    match env.describeNotebookInstance nb.NotebookInstanceName with
    | none => none
    | some detail =>
      match detail.KmsKeyId with
      | none => some (awsToString nb.NotebookInstanceName)
      | some k =>
        if k = "" then some (awsToString nb.NotebookInstanceName) else none)

/-- The violating-resource loop of SageMakerChecks.CheckNotebookDirectInternet, as a standalone
function of the same inputs, for stating the FAIL-Evidence invariant. -/
def smDirectInternetNotebooks (env : SageMakerEnv) (notebooks : List SMNotebookSummary) : List String :=
  notebooks.filterMap (fun nb =>
    match env.describeNotebookInstance nb.NotebookInstanceName with
    | none => none
    | some detail =>
      if detail.DirectInternetAccess = "Enabled" then
        some (awsToString nb.NotebookInstanceName)
      else none)

/-- The violating-resource loop of SageMakerChecks.CheckNotebookRootAccess, as a standalone
function of the same inputs, for stating the FAIL-Evidence invariant. -/
def smRootAccessNotebooks (env : SageMakerEnv) (notebooks : List SMNotebookSummary) : List String :=
  notebooks.filterMap (fun nb =>
    match env.describeNotebookInstance nb.NotebookInstanceName with
    | none => none
    | some detail =>
      if detail.RootAccess = "Enabled" then
        some (awsToString nb.NotebookInstanceName)
      else none)

/-- The violating-resource loop of SageMakerChecks.CheckEndpointEncryption, as a standalone
function of the same inputs, for stating the FAIL-Evidence invariant. -/
def smUnencryptedEndpoints (env : SageMakerEnv) (endpoints : List SMEndpointSummary) : List String :=
  endpoints.filterMap (fun ep =>
    match env.describeEndpoint ep.EndpointName with
    | none => none
    | some detail =>
      match env.describeEndpointConfig detail.EndpointConfigName with
      | none => none
      | some configDetail =>
        match configDetail.KmsKeyId with
        | none => some (awsToString ep.EndpointName)
        | some k =>
          if k = "" then some (awsToString ep.EndpointName) else none)

/-- The violating-resource loop of SageMakerChecks.CheckTrainingJobEncryption, as a standalone
function of the same inputs, for stating the FAIL-Evidence invariant. -/
def smUnencryptedTrainingJobs (env : SageMakerEnv) (jobs : List SMTrainingJobSummary) : List String :=
  jobs.filterMap (fun job =>
    match env.describeTrainingJob job.TrainingJobName with
    | none => none
    | some detail =>
      match detail.ResourceConfig with
      | none => none
      | some rc =>
        match rc.VolumeKmsKeyId with
        | none => some (awsToString job.TrainingJobName)
        | some k =>
          if k = "" then some (awsToString job.TrainingJobName) else none)

/-- The violating-resource loop of SageMakerChecks.CheckModelNetworkIsolation, as a standalone
function of the same inputs, for stating the FAIL-Evidence invariant. -/
def smNotIsolatedModels (env : SageMakerEnv) (models : List SMModelSummary) : List String :=
  models.filterMap (fun model =>
    match env.describeModel model.ModelName with
    | none => none
    | some detail =>
      match detail.EnableNetworkIsolation with
      | none => some (awsToString model.ModelName)
      | some b => if !b then some (awsToString model.ModelName) else none)

/-- The violating-resource loop of RedshiftChecks.CheckClusterEncryption, as a standalone
function of the same inputs, for stating the FAIL-Evidence invariant. -/
def rsUnencryptedClusters (clusters : List RSCluster) : List String :=
  clusters.filterMap (fun cluster =>
    if !(awsToBool cluster.Encrypted) then some (awsToString cluster.ClusterIdentifier) else none)

/-- The violating-resource loop of RedshiftChecks.CheckClusterPublicAccess, as a standalone
function of the same inputs, for stating the FAIL-Evidence invariant. -/
def rsPublicClusters (clusters : List RSCluster) : List String :=
  clusters.filterMap (fun cluster =>
    if awsToBool cluster.PubliclyAccessible then some (awsToString cluster.ClusterIdentifier) else none)

/-- The violating-resource loop of RedshiftChecks.CheckClusterLogging, as a standalone
function of the same inputs, for stating the FAIL-Evidence invariant. -/
def rsNoLoggingClusters (env : RedshiftEnv) (clusters : List RSCluster) : List String :=
  clusters.filterMap (fun cluster =>
    match env.describeLoggingStatus cluster.ClusterIdentifier with
    | none => some (awsToString cluster.ClusterIdentifier)
    | some logging =>
      if !(awsToBool logging.LoggingEnabled) then
        some (awsToString cluster.ClusterIdentifier)
      else none)

/-- The violating-resource loop of RedshiftChecks.CheckClusterSSL, as a standalone
function of the same inputs, for stating the FAIL-Evidence invariant. -/
def rsNoSSLClusters (env : RedshiftEnv) (clusters : List RSCluster) : List String :=
  clusters.foldl (fun acc cluster =>
    match cluster.ClusterParameterGroups with
    | none => acc
    | some pgs =>
      pgs.foldl (fun acc2 pg =>
        match env.describeClusterParameters (some (awsToString pg.ParameterGroupName)) with
        | none => acc2
        | some params =>
          if !(params.any (fun param =>
              awsToString param.ParameterName == "require_ssl" &&
                awsToString param.ParameterValue == "true")) then
            acc2 ++ [awsToString cluster.ClusterIdentifier]
          else acc2) acc) []

/-- The violating-resource loop of RedshiftChecks.CheckClusterVersionUpgrade, as a standalone
function of the same inputs, for stating the FAIL-Evidence invariant. -/
def rsNoAutoUpgradeClusters (clusters : List RSCluster) : List String :=
  clusters.filterMap (fun cluster =>
    if !(awsToBool cluster.AllowVersionUpgrade) then some (awsToString cluster.ClusterIdentifier) else none)

/-- The violating-resource loop of RedshiftChecks.CheckClusterBackupRetention, as a standalone
function of the same inputs, for stating the FAIL-Evidence invariant. -/
def rsLowRetentionClusters (clusters : List RSCluster) : List String :=
  clusters.filterMap (fun cluster =>
    match cluster.AutomatedSnapshotRetentionPeriod with
    | none => none
    | some p =>
      if p < 7 then
        some (awsToString cluster.ClusterIdentifier ++ " (" ++ toString p ++ " days)")
      else none)

/-- The violating-resource loop of RedshiftChecks.CheckClusterEnhancedVPCRouting, as a standalone
function of the same inputs, for stating the FAIL-Evidence invariant. -/
def rsNoEnhancedRoutingClusters (clusters : List RSCluster) : List String :=
  clusters.filterMap (fun cluster =>
    if !(awsToBool cluster.EnhancedVpcRouting) then some (awsToString cluster.ClusterIdentifier) else none)


/- ===================== Helper lemmas ===================== -/

lemma ne_empty_of_length_pos (s : String) (h : 0 < s.length) : s ≠ "" := by
  intro he
  subst he
  simp at h

lemma goFmtStrList_length_pos (xs : List String) : 0 < (goFmtStrList xs).length := by
  unfold goFmtStrList
  simp [String.length_append]
  left
  left
  decide

lemma failEvidence_ne_empty (n : Nat) (mid : String) (xs : List String) :
    failEvidence n mid xs ≠ "" := by
  apply ne_empty_of_length_pos
  unfold failEvidence
  have := goFmtStrList_length_pos xs
  simp [String.length_append]
  omega

/- ===================== Claim theorems ===================== -/

/-- C1.  Every leaf check of the corpus whose list call succeeds with an
empty resource list returns Status=PASS, Priority=INFO and an Evidence
string saying that no resources of that type were found; absence of a
resource type is never reported as a violation. -/
theorem zero_resources_vacuous_pass
    (tbl : String → List (String × String)) (now : Nat)
    (osd : Option String → Option OSDomainStatus)
    (smnb : Option String → Option SMNotebookDetail)
    (smde : Option String → Option SMEndpointDetail)
    (smdc : Option String → Option SMEndpointConfigDetail)
    (smdt : Option String → Option SMTrainingJobDetail)
    (smdm : Option String → Option SMModelDetail)
    (rsl : Option String → Option RSLoggingStatus)
    (rsp : Option String → Option (List RSParameter)) :
    vacuousOK (OpenSearchChecks.CheckEncryptionAtRest tbl ⟨Except.ok [], osd⟩ now)
      ("No OpenSearch domains found") ∧
    vacuousOK (OpenSearchChecks.CheckNodeToNodeEncryption tbl ⟨Except.ok [], osd⟩ now)
      ("No OpenSearch domains found") ∧
    vacuousOK (OpenSearchChecks.CheckHTTPS tbl ⟨Except.ok [], osd⟩ now)
      ("No OpenSearch domains found") ∧
    vacuousOK (OpenSearchChecks.CheckVPCDeployment tbl ⟨Except.ok [], osd⟩ now)
      ("No OpenSearch domains found") ∧
    vacuousOK (OpenSearchChecks.CheckAuditLogs tbl ⟨Except.ok [], osd⟩ now)
      ("No OpenSearch domains found") ∧
    vacuousOK (OpenSearchChecks.CheckFineGrainedAccessControl tbl ⟨Except.ok [], osd⟩ now)
      ("No OpenSearch domains found") ∧
    vacuousOK (ElastiCacheChecks.CheckEncryptionAtRest tbl ⟨Except.ok [], Except.ok []⟩ now)
      ("No ElastiCache clusters found") ∧
    vacuousOK (ElastiCacheChecks.CheckEncryptionInTransit tbl ⟨Except.ok [], Except.ok []⟩ now)
      ("No ElastiCache clusters found") ∧
    vacuousOK (ElastiCacheChecks.CheckAutoMinorVersionUpgrade tbl ⟨Except.ok [], Except.ok []⟩ now)
      ("No ElastiCache clusters found") ∧
    vacuousOK (ElastiCacheChecks.CheckAuthToken tbl ⟨Except.ok [], Except.ok []⟩ now)
      ("No Redis replication groups found") ∧
    vacuousOK (ElastiCacheChecks.CheckBackupRetention tbl ⟨Except.ok [], Except.ok []⟩ now)
      ("No Redis replication groups found") ∧
    vacuousOK (SageMakerChecks.CheckNotebookEncryption tbl
      ⟨Except.ok [], smnb, Except.ok [], smde, smdc, Except.ok [], smdt, Except.ok [], smdm⟩ now)
      ("No SageMaker notebooks found") ∧
    vacuousOK (SageMakerChecks.CheckNotebookDirectInternet tbl
      ⟨Except.ok [], smnb, Except.ok [], smde, smdc, Except.ok [], smdt, Except.ok [], smdm⟩ now)
      ("No SageMaker notebooks found") ∧
    vacuousOK (SageMakerChecks.CheckNotebookRootAccess tbl
      ⟨Except.ok [], smnb, Except.ok [], smde, smdc, Except.ok [], smdt, Except.ok [], smdm⟩ now)
      ("No SageMaker notebooks found") ∧
    vacuousOK (SageMakerChecks.CheckEndpointEncryption tbl
      ⟨Except.ok [], smnb, Except.ok [], smde, smdc, Except.ok [], smdt, Except.ok [], smdm⟩ now)
      ("No SageMaker endpoints found") ∧
    vacuousOK (SageMakerChecks.CheckTrainingJobEncryption tbl
      ⟨Except.ok [], smnb, Except.ok [], smde, smdc, Except.ok [], smdt, Except.ok [], smdm⟩ now)
      ("No SageMaker training jobs found") ∧
    vacuousOK (SageMakerChecks.CheckModelNetworkIsolation tbl
      ⟨Except.ok [], smnb, Except.ok [], smde, smdc, Except.ok [], smdt, Except.ok [], smdm⟩ now)
      ("No SageMaker models found") ∧
    vacuousOK (RedshiftChecks.CheckClusterEncryption tbl ⟨Except.ok [], rsl, rsp⟩ now)
      ("No Redshift clusters found") ∧
    vacuousOK (RedshiftChecks.CheckClusterPublicAccess tbl ⟨Except.ok [], rsl, rsp⟩ now)
      ("No Redshift clusters found") ∧
    vacuousOK (RedshiftChecks.CheckClusterLogging tbl ⟨Except.ok [], rsl, rsp⟩ now)
      ("No Redshift clusters found") ∧
    vacuousOK (RedshiftChecks.CheckClusterSSL tbl ⟨Except.ok [], rsl, rsp⟩ now)
      ("No Redshift clusters found") ∧
    vacuousOK (RedshiftChecks.CheckClusterVersionUpgrade tbl ⟨Except.ok [], rsl, rsp⟩ now)
      ("No Redshift clusters found") ∧
    vacuousOK (RedshiftChecks.CheckClusterBackupRetention tbl ⟨Except.ok [], rsl, rsp⟩ now)
      ("No Redshift clusters found") ∧
    vacuousOK (RedshiftChecks.CheckClusterEnhancedVPCRouting tbl ⟨Except.ok [], rsl, rsp⟩ now)
      ("No Redshift clusters found") := by
  refine ⟨?_, ?_, ?_, ?_, ?_, ?_, ?_, ?_, ?_, ?_, ?_, ?_, ?_, ?_, ?_, ?_, ?_, ?_,
    ?_, ?_, ?_, ?_, ?_, ?_⟩
  all_goals exact ⟨_, rfl, rfl, rfl, rfl⟩

/-- C2.  On every FAIL-returning path of every leaf check in the corpus,
the returned CheckResult carries a non-empty Severity, and its Evidence
is exactly the count of violating resources followed by the list of
their specific identifiers — the violator list computed by that check
from the cloud response (truncated to the top 5 plus a count entry for
the two truncating checks) — which is non-empty on every such path. -/
theorem fail_results_carry_severity_and_evidence :
    (∀ tbl (env : OpenSearchEnv) now r (xs : List OSDomainInfo),
      env.listDomainNames = Except.ok xs →
      OpenSearchChecks.CheckEncryptionAtRest tbl env now = Except.ok r →
      r.Status = "FAIL" →
      r.Severity ≠ "" ∧ osUnencryptedAtRestDomains env xs ≠ [] ∧
      r.Evidence = failEvidence (osUnencryptedAtRestDomains env xs).length
        (" OpenSearch domains without encryption at rest: ") (osUnencryptedAtRestDomains env xs)) ∧
    (∀ tbl (env : OpenSearchEnv) now r (xs : List OSDomainInfo),
      env.listDomainNames = Except.ok xs →
      OpenSearchChecks.CheckNodeToNodeEncryption tbl env now = Except.ok r →
      r.Status = "FAIL" →
      r.Severity ≠ "" ∧ osNoNodeEncryptionDomains env xs ≠ [] ∧
      r.Evidence = failEvidence (osNoNodeEncryptionDomains env xs).length
        (" OpenSearch domains without node-to-node encryption: ") (osNoNodeEncryptionDomains env xs)) ∧
    (∀ tbl (env : OpenSearchEnv) now r (xs : List OSDomainInfo),
      env.listDomainNames = Except.ok xs →
      OpenSearchChecks.CheckHTTPS tbl env now = Except.ok r →
      r.Status = "FAIL" →
      r.Severity ≠ "" ∧ osNoHTTPSDomains env xs ≠ [] ∧
      r.Evidence = failEvidence (osNoHTTPSDomains env xs).length
        (" OpenSearch domains not enforcing HTTPS: ") (osNoHTTPSDomains env xs)) ∧
    (∀ tbl (env : OpenSearchEnv) now r (xs : List OSDomainInfo),
      env.listDomainNames = Except.ok xs →
      OpenSearchChecks.CheckVPCDeployment tbl env now = Except.ok r →
      r.Status = "FAIL" →
      r.Severity ≠ "" ∧ osPublicDomains env xs ≠ [] ∧
      r.Evidence = failEvidence (osPublicDomains env xs).length
        (" OpenSearch domains are publicly accessible (not in VPC): ") (osPublicDomains env xs)) ∧
    (∀ tbl (env : OpenSearchEnv) now r (xs : List OSDomainInfo),
      env.listDomainNames = Except.ok xs →
      OpenSearchChecks.CheckAuditLogs tbl env now = Except.ok r →
      r.Status = "FAIL" →
      r.Severity ≠ "" ∧ osNoAuditLogDomains env xs ≠ [] ∧
      r.Evidence = failEvidence (osNoAuditLogDomains env xs).length
        (" OpenSearch domains without audit logging: ") (osNoAuditLogDomains env xs)) ∧
    (∀ tbl (env : OpenSearchEnv) now r (xs : List OSDomainInfo),
      env.listDomainNames = Except.ok xs →
      OpenSearchChecks.CheckFineGrainedAccessControl tbl env now = Except.ok r →
      r.Status = "FAIL" →
      r.Severity ≠ "" ∧ osNoFGACDomains env xs ≠ [] ∧
      r.Evidence = failEvidence (osNoFGACDomains env xs).length
        (" OpenSearch domains without fine-grained access control: ") (osNoFGACDomains env xs)) ∧
    (∀ tbl (env : ElastiCacheEnv) now r (xs : List ECCacheCluster),
      env.describeCacheClusters = Except.ok xs →
      ElastiCacheChecks.CheckEncryptionAtRest tbl env now = Except.ok r →
      r.Status = "FAIL" →
      r.Severity ≠ "" ∧ ecUnencryptedClusters xs ≠ [] ∧
      r.Evidence = failEvidence (ecUnencryptedClusters xs).length
        (" ElastiCache clusters without encryption at rest: ") (ecUnencryptedClusters xs)) ∧
    (∀ tbl (env : ElastiCacheEnv) now r (xs : List ECCacheCluster),
      env.describeCacheClusters = Except.ok xs →
      ElastiCacheChecks.CheckEncryptionInTransit tbl env now = Except.ok r →
      r.Status = "FAIL" →
      r.Severity ≠ "" ∧ ecNoTransitClusters xs ≠ [] ∧
      r.Evidence = failEvidence (ecNoTransitClusters xs).length
        (" ElastiCache clusters without encryption in transit: ") (ecNoTransitClusters xs)) ∧
    (∀ tbl (env : ElastiCacheEnv) now r (xs : List ECCacheCluster),
      env.describeCacheClusters = Except.ok xs →
      ElastiCacheChecks.CheckAutoMinorVersionUpgrade tbl env now = Except.ok r →
      r.Status = "FAIL" →
      r.Severity ≠ "" ∧ ecNoAutoUpgradeClusters xs ≠ [] ∧
      r.Evidence = failEvidence (ecNoAutoUpgradeClusters xs).length
        (" ElastiCache clusters without auto minor version upgrade: ") (ecNoAutoUpgradeClusters xs)) ∧
    (∀ tbl (env : ElastiCacheEnv) now r (xs : List ECReplicationGroup),
      env.describeReplicationGroups = Except.ok xs →
      ElastiCacheChecks.CheckAuthToken tbl env now = Except.ok r →
      r.Status = "FAIL" →
      r.Severity ≠ "" ∧ ecNoAuthGroups xs ≠ [] ∧
      r.Evidence = failEvidence (ecNoAuthGroups xs).length
        (" Redis replication groups without AUTH token: ") (ecNoAuthGroups xs)) ∧
    (∀ tbl (env : ElastiCacheEnv) now r (xs : List ECReplicationGroup),
      env.describeReplicationGroups = Except.ok xs →
      ElastiCacheChecks.CheckBackupRetention tbl env now = Except.ok r →
      r.Status = "FAIL" →
      r.Severity ≠ "" ∧ ecLowRetentionGroups xs ≠ [] ∧
      r.Evidence = failEvidence (ecLowRetentionGroups xs).length
        (" Redis groups with backup retention < 7 days: ") (ecLowRetentionGroups xs)) ∧
    (∀ tbl (env : SageMakerEnv) now r (xs : List SMNotebookSummary),
      env.listNotebookInstances = Except.ok xs →
      SageMakerChecks.CheckNotebookEncryption tbl env now = Except.ok r →
      r.Status = "FAIL" →
      r.Severity ≠ "" ∧ smUnencryptedNotebooks env xs ≠ [] ∧
      r.Evidence = failEvidence (smUnencryptedNotebooks env xs).length
        (" notebooks without KMS encryption: ") (smUnencryptedNotebooks env xs)) ∧
    (∀ tbl (env : SageMakerEnv) now r (xs : List SMNotebookSummary),
      env.listNotebookInstances = Except.ok xs →
      SageMakerChecks.CheckNotebookDirectInternet tbl env now = Except.ok r →
      r.Status = "FAIL" →
      r.Severity ≠ "" ∧ smDirectInternetNotebooks env xs ≠ [] ∧
      r.Evidence = failEvidence (smDirectInternetNotebooks env xs).length
        (" notebooks have direct internet access enabled: ") (smDirectInternetNotebooks env xs)) ∧
    (∀ tbl (env : SageMakerEnv) now r (xs : List SMNotebookSummary),
      env.listNotebookInstances = Except.ok xs →
      SageMakerChecks.CheckNotebookRootAccess tbl env now = Except.ok r →
      r.Status = "FAIL" →
      r.Severity ≠ "" ∧ smRootAccessNotebooks env xs ≠ [] ∧
      r.Evidence = failEvidence (smRootAccessNotebooks env xs).length
        (" notebooks have root access enabled: ") (smRootAccessNotebooks env xs)) ∧
    (∀ tbl (env : SageMakerEnv) now r (xs : List SMEndpointSummary),
      env.listEndpoints = Except.ok xs →
      SageMakerChecks.CheckEndpointEncryption tbl env now = Except.ok r →
      r.Status = "FAIL" →
      r.Severity ≠ "" ∧ smUnencryptedEndpoints env xs ≠ [] ∧
      r.Evidence = failEvidence (smUnencryptedEndpoints env xs).length
        (" endpoints without KMS encryption: ") (smUnencryptedEndpoints env xs)) ∧
    (∀ tbl (env : SageMakerEnv) now r (xs : List SMTrainingJobSummary),
      env.listTrainingJobs = Except.ok xs →
      SageMakerChecks.CheckTrainingJobEncryption tbl env now = Except.ok r →
      r.Status = "FAIL" →
      r.Severity ≠ "" ∧ smUnencryptedTrainingJobs env xs ≠ [] ∧
      r.Evidence = failEvidence (smUnencryptedTrainingJobs env xs).length
        (" training jobs without volume encryption: ") (truncateList (smUnencryptedTrainingJobs env xs) 5)) ∧
    (∀ tbl (env : SageMakerEnv) now r (xs : List SMModelSummary),
      env.listModels = Except.ok xs →
      SageMakerChecks.CheckModelNetworkIsolation tbl env now = Except.ok r →
      r.Status = "FAIL" →
      r.Severity ≠ "" ∧ smNotIsolatedModels env xs ≠ [] ∧
      r.Evidence = failEvidence (smNotIsolatedModels env xs).length
        (" models without network isolation: ") (truncateList (smNotIsolatedModels env xs) 5)) ∧
    (∀ tbl (env : RedshiftEnv) now r (xs : List RSCluster),
      env.describeClusters = Except.ok xs →
      RedshiftChecks.CheckClusterEncryption tbl env now = Except.ok r →
      r.Status = "FAIL" →
      r.Severity ≠ "" ∧ rsUnencryptedClusters xs ≠ [] ∧
      r.Evidence = failEvidence (rsUnencryptedClusters xs).length
        (" Redshift clusters NOT encrypted: ") (rsUnencryptedClusters xs)) ∧
    (∀ tbl (env : RedshiftEnv) now r (xs : List RSCluster),
      env.describeClusters = Except.ok xs →
      RedshiftChecks.CheckClusterPublicAccess tbl env now = Except.ok r →
      r.Status = "FAIL" →
      r.Severity ≠ "" ∧ rsPublicClusters xs ≠ [] ∧
      r.Evidence = failEvidence (rsPublicClusters xs).length
        (" Redshift clusters are publicly accessible: ") (rsPublicClusters xs)) ∧
    (∀ tbl (env : RedshiftEnv) now r (xs : List RSCluster),
      env.describeClusters = Except.ok xs →
      RedshiftChecks.CheckClusterLogging tbl env now = Except.ok r →
      r.Status = "FAIL" →
      r.Severity ≠ "" ∧ rsNoLoggingClusters env xs ≠ [] ∧
      r.Evidence = failEvidence (rsNoLoggingClusters env xs).length
        (" Redshift clusters without audit logging: ") (rsNoLoggingClusters env xs)) ∧
    (∀ tbl (env : RedshiftEnv) now r (xs : List RSCluster),
      env.describeClusters = Except.ok xs →
      RedshiftChecks.CheckClusterSSL tbl env now = Except.ok r →
      r.Status = "FAIL" →
      r.Severity ≠ "" ∧ rsNoSSLClusters env xs ≠ [] ∧
      r.Evidence = failEvidence (rsNoSSLClusters env xs).length
        (" Redshift clusters do not require SSL: ") (rsNoSSLClusters env xs)) ∧
    (∀ tbl (env : RedshiftEnv) now r (xs : List RSCluster),
      env.describeClusters = Except.ok xs →
      RedshiftChecks.CheckClusterVersionUpgrade tbl env now = Except.ok r →
      r.Status = "FAIL" →
      r.Severity ≠ "" ∧ rsNoAutoUpgradeClusters xs ≠ [] ∧
      r.Evidence = failEvidence (rsNoAutoUpgradeClusters xs).length
        (" Redshift clusters have auto version upgrade disabled: ") (rsNoAutoUpgradeClusters xs)) ∧
    (∀ tbl (env : RedshiftEnv) now r (xs : List RSCluster),
      env.describeClusters = Except.ok xs →
      RedshiftChecks.CheckClusterBackupRetention tbl env now = Except.ok r →
      r.Status = "FAIL" →
      r.Severity ≠ "" ∧ rsLowRetentionClusters xs ≠ [] ∧
      r.Evidence = failEvidence (rsLowRetentionClusters xs).length
        (" Redshift clusters with backup retention < 7 days: ") (rsLowRetentionClusters xs)) ∧
    (∀ tbl (env : RedshiftEnv) now r (xs : List RSCluster),
      env.describeClusters = Except.ok xs →
      RedshiftChecks.CheckClusterEnhancedVPCRouting tbl env now = Except.ok r →
      r.Status = "FAIL" →
      r.Severity ≠ "" ∧ rsNoEnhancedRoutingClusters xs ≠ [] ∧
      r.Evidence = failEvidence (rsNoEnhancedRoutingClusters xs).length
        (" Redshift clusters without enhanced VPC routing: ") (rsNoEnhancedRoutingClusters xs)) := by
  refine ⟨?_, ?_, ?_, ?_, ?_, ?_, ?_, ?_, ?_, ?_, ?_, ?_, ?_, ?_, ?_, ?_, ?_, ?_, ?_, ?_, ?_, ?_, ?_, ?_⟩
  all_goals (
    intro tbl env now r xs hxs h hf
    simp only [OpenSearchChecks.CheckEncryptionAtRest, OpenSearchChecks.CheckNodeToNodeEncryption, OpenSearchChecks.CheckHTTPS, OpenSearchChecks.CheckVPCDeployment, OpenSearchChecks.CheckAuditLogs, OpenSearchChecks.CheckFineGrainedAccessControl, ElastiCacheChecks.CheckEncryptionAtRest, ElastiCacheChecks.CheckEncryptionInTransit, ElastiCacheChecks.CheckAutoMinorVersionUpgrade, ElastiCacheChecks.CheckAuthToken, ElastiCacheChecks.CheckBackupRetention, SageMakerChecks.CheckNotebookEncryption, SageMakerChecks.CheckNotebookDirectInternet, SageMakerChecks.CheckNotebookRootAccess, SageMakerChecks.CheckEndpointEncryption, SageMakerChecks.CheckTrainingJobEncryption, SageMakerChecks.CheckModelNetworkIsolation, RedshiftChecks.CheckClusterEncryption, RedshiftChecks.CheckClusterPublicAccess, RedshiftChecks.CheckClusterLogging, RedshiftChecks.CheckClusterSSL, RedshiftChecks.CheckClusterVersionUpgrade, RedshiftChecks.CheckClusterBackupRetention, RedshiftChecks.CheckClusterEnhancedVPCRouting, hxs] at h
    split at h
    · rename_i hc
      injection h with h2
      subst h2
      exact ⟨by simp, List.length_pos.mp hc, rfl⟩
    · split at h
      · injection h with h2
        subst h2
        simp at hf
      · injection h with h2
        subst h2
        simp at hf)

/-- C2 witness: on the concrete account osEnvOneUnencrypted the
OpenSearch encryption-at-rest check fails with the violator list
[dom-a] in its Evidence. -/
theorem fail_results_carry_severity_and_evidence_witness :
    osFailRes.Severity ≠ "" ∧ (["dom-a"] : List String) ≠ [] ∧
    osFailRes.Evidence =
      failEvidence (["dom-a"] : List String).length
        (" OpenSearch domains without encryption at rest: ") ["dom-a"] :=
  fail_results_carry_severity_and_evidence.1 tblEmpty osEnvOneUnencrypted 0 osFailRes
    [{ DomainName := some ("dom-a") }] (by rfl) (by rfl) (by rfl)


/-- C6.  Scenario A: on an account with three Redshift clusters of which
exactly cluster-a is unencrypted, CheckClusterEncryption returns
Status=FAIL, Severity=CRITICAL, and Evidence equal to
"1 Redshift clusters NOT encrypted: [cluster-a]". -/
theorem redshift_encryption_scenario_a
    (tbl : String → List (String × String)) (now : Nat) :
    ∃ r, RedshiftChecks.CheckClusterEncryption tbl rsEnvScenarioA now = Except.ok r ∧
      r.Status = "FAIL" ∧ r.Severity = "CRITICAL" ∧
      r.Evidence = "1 Redshift clusters NOT encrypted: [cluster-a]" :=
  ⟨_, rfl, rfl, rfl, rfl⟩

/-- C9.  Every Checker.Run in the corpus returns a nil error on every
input, and a Checker all of whose sub-checks fail returns the empty
result list with a nil error, so the Runner's omissions path can never
be taken by these Checkers. -/
theorem run_always_returns_nil_error :
    (∀ tbl env now, (OpenSearchChecks.Run tbl env now).2 = none) ∧
    (∀ tbl env now, (ElastiCacheChecks.Run tbl env now).2 = none) ∧
    (∀ tbl env now, (SageMakerChecks.Run tbl env now).2 = none) ∧
    (∀ tbl env now, (RedshiftChecks.Run tbl env now).2 = none) ∧
    (∀ tbl now e (osd : Option String → Option OSDomainStatus),
      OpenSearchChecks.Run tbl ⟨Except.error e, osd⟩ now = ([], none)) ∧
    (∀ tbl now e1 e2,
      ElastiCacheChecks.Run tbl ⟨Except.error e1, Except.error e2⟩ now = ([], none)) ∧
    (∀ tbl now e1 e2 e3 e4
      (d1 : Option String → Option SMNotebookDetail)
      (d2 : Option String → Option SMEndpointDetail)
      (d3 : Option String → Option SMEndpointConfigDetail)
      (d4 : Option String → Option SMTrainingJobDetail)
      (d5 : Option String → Option SMModelDetail),
      SageMakerChecks.Run tbl
        ⟨Except.error e1, d1, Except.error e2, d2, d3, Except.error e3, d4,
          Except.error e4, d5⟩ now = ([], none)) ∧
    (∀ tbl now e (rsl : Option String → Option RSLoggingStatus)
      (rsp : Option String → Option (List RSParameter)),
      RedshiftChecks.Run tbl ⟨Except.error e, rsl, rsp⟩ now = ([], none)) := by
  refine ⟨?_, ?_, ?_, ?_, ?_, ?_, ?_, ?_⟩
  all_goals intros
  all_goals rfl

/-- C3 counterexample: a Redshift account whose DescribeClusters call is
denied.  Every sub-check fails, yet Run returns ([], nil): the result
set excludes the failed checks but the error is mapped to nil and no
(checkerName, error) pair appears anywhere in the output, so the
omission is not surfaced to the caller. -/
theorem checker_error_discarded_counterexample :
    RedshiftChecks.Run tblEmpty
      { describeClusters := Except.error ("AccessDenied: not authorized to perform redshift:DescribeClusters")
        describeLoggingStatus := fun _ => none
        describeClusterParameters := fun _ => none } 0 = ([], none) :=
  rfl

lemma mem_runAppend {acc : List CheckResult} {x : Except String CheckResult}
    {r : CheckResult} (h : r ∈ runAppend acc x) : r ∈ acc ∨ x = Except.ok r := by
  cases x with
  | error e => exact Or.inl h
  | ok a =>
    simp only [runAppend, List.mem_append, List.mem_singleton] at h
    rcases h with h | h
    · exact Or.inl h
    · exact Or.inr (by rw [h])

lemma sm_endpoint_check_name (tbl : String → List (String × String))
    (env : SageMakerEnv) (now : Nat) (r : CheckResult)
    (h : SageMakerChecks.CheckEndpointEncryption tbl env now = Except.ok r) :
    r.Name = "SageMaker Endpoint Encryption" := by
  simp only [SageMakerChecks.CheckEndpointEncryption] at h
  split at h
  · exact Except.noConfusion h
  · split at h
    · injection h with h2
      subst h2
      rfl
    · split at h
      · injection h with h2
        subst h2
        rfl
      · injection h with h2
        subst h2
        rfl

lemma sm_training_check_name (tbl : String → List (String × String))
    (env : SageMakerEnv) (now : Nat) (r : CheckResult)
    (h : SageMakerChecks.CheckTrainingJobEncryption tbl env now = Except.ok r) :
    r.Name = "SageMaker Training Job Encryption" := by
  simp only [SageMakerChecks.CheckTrainingJobEncryption] at h
  split at h
  · exact Except.noConfusion h
  · split at h
    · injection h with h2
      subst h2
      rfl
    · split at h
      · injection h with h2
        subst h2
        rfl
      · injection h with h2
        subst h2
        rfl

lemma sm_model_check_name (tbl : String → List (String × String))
    (env : SageMakerEnv) (now : Nat) (r : CheckResult)
    (h : SageMakerChecks.CheckModelNetworkIsolation tbl env now = Except.ok r) :
    r.Name = "SageMaker Model Network Isolation" := by
  simp only [SageMakerChecks.CheckModelNetworkIsolation] at h
  split at h
  · exact Except.noConfusion h
  · split at h
    · injection h with h2
      subst h2
      rfl
    · split at h
      · injection h with h2
        subst h2
        rfl
      · injection h with h2
        subst h2
        rfl

lemma os_encryption_at_rest_name (tbl : String → List (String × String))
    (env : OpenSearchEnv) (now : Nat) (r : CheckResult)
    (h : OpenSearchChecks.CheckEncryptionAtRest tbl env now = Except.ok r) :
    r.Name = "OpenSearch Encryption at Rest" := by
  simp only [OpenSearchChecks.CheckEncryptionAtRest] at h
  split at h
  · exact Except.noConfusion h
  · split at h
    · injection h with h2
      subst h2
      rfl
    · split at h
      · injection h with h2
        subst h2
        rfl
      · injection h with h2
        subst h2
        rfl

lemma os_node_to_node_name (tbl : String → List (String × String))
    (env : OpenSearchEnv) (now : Nat) (r : CheckResult)
    (h : OpenSearchChecks.CheckNodeToNodeEncryption tbl env now = Except.ok r) :
    r.Name = "OpenSearch Node-to-Node Encryption" := by
  simp only [OpenSearchChecks.CheckNodeToNodeEncryption] at h
  split at h
  · exact Except.noConfusion h
  · split at h
    · injection h with h2
      subst h2
      rfl
    · split at h
      · injection h with h2
        subst h2
        rfl
      · injection h with h2
        subst h2
        rfl

lemma os_https_name (tbl : String → List (String × String))
    (env : OpenSearchEnv) (now : Nat) (r : CheckResult)
    (h : OpenSearchChecks.CheckHTTPS tbl env now = Except.ok r) :
    r.Name = "OpenSearch HTTPS Required" := by
  simp only [OpenSearchChecks.CheckHTTPS] at h
  split at h
  · exact Except.noConfusion h
  · split at h
    · injection h with h2
      subst h2
      rfl
    · split at h
      · injection h with h2
        subst h2
        rfl
      · injection h with h2
        subst h2
        rfl

lemma os_vpc_name (tbl : String → List (String × String))
    (env : OpenSearchEnv) (now : Nat) (r : CheckResult)
    (h : OpenSearchChecks.CheckVPCDeployment tbl env now = Except.ok r) :
    r.Name = "OpenSearch VPC Deployment" := by
  simp only [OpenSearchChecks.CheckVPCDeployment] at h
  split at h
  · exact Except.noConfusion h
  · split at h
    · injection h with h2
      subst h2
      rfl
    · split at h
      · injection h with h2
        subst h2
        rfl
      · injection h with h2
        subst h2
        rfl

lemma os_audit_logs_name (tbl : String → List (String × String))
    (env : OpenSearchEnv) (now : Nat) (r : CheckResult)
    (h : OpenSearchChecks.CheckAuditLogs tbl env now = Except.ok r) :
    r.Name = "OpenSearch Audit Logs" := by
  simp only [OpenSearchChecks.CheckAuditLogs] at h
  split at h
  · exact Except.noConfusion h
  · split at h
    · injection h with h2
      subst h2
      rfl
    · split at h
      · injection h with h2
        subst h2
        rfl
      · injection h with h2
        subst h2
        rfl

lemma os_fgac_name (tbl : String → List (String × String))
    (env : OpenSearchEnv) (now : Nat) (r : CheckResult)
    (h : OpenSearchChecks.CheckFineGrainedAccessControl tbl env now = Except.ok r) :
    r.Name = "OpenSearch Fine-Grained Access Control" := by
  simp only [OpenSearchChecks.CheckFineGrainedAccessControl] at h
  split at h
  · exact Except.noConfusion h
  · split at h
    · injection h with h2
      subst h2
      rfl
    · split at h
      · injection h with h2
        subst h2
        rfl
      · injection h with h2
        subst h2
        rfl

lemma ec_encryption_at_rest_name (tbl : String → List (String × String))
    (env : ElastiCacheEnv) (now : Nat) (r : CheckResult)
    (h : ElastiCacheChecks.CheckEncryptionAtRest tbl env now = Except.ok r) :
    r.Name = "ElastiCache Encryption at Rest" := by
  simp only [ElastiCacheChecks.CheckEncryptionAtRest] at h
  split at h
  · exact Except.noConfusion h
  · split at h
    · injection h with h2
      subst h2
      rfl
    · split at h
      · injection h with h2
        subst h2
        rfl
      · injection h with h2
        subst h2
        rfl

lemma ec_transit_name (tbl : String → List (String × String))
    (env : ElastiCacheEnv) (now : Nat) (r : CheckResult)
    (h : ElastiCacheChecks.CheckEncryptionInTransit tbl env now = Except.ok r) :
    r.Name = "ElastiCache Encryption in Transit" := by
  simp only [ElastiCacheChecks.CheckEncryptionInTransit] at h
  split at h
  · exact Except.noConfusion h
  · split at h
    · injection h with h2
      subst h2
      rfl
    · split at h
      · injection h with h2
        subst h2
        rfl
      · injection h with h2
        subst h2
        rfl

lemma ec_auto_upgrade_name (tbl : String → List (String × String))
    (env : ElastiCacheEnv) (now : Nat) (r : CheckResult)
    (h : ElastiCacheChecks.CheckAutoMinorVersionUpgrade tbl env now = Except.ok r) :
    r.Name = "ElastiCache Auto Minor Version Upgrade" := by
  simp only [ElastiCacheChecks.CheckAutoMinorVersionUpgrade] at h
  split at h
  · exact Except.noConfusion h
  · split at h
    · injection h with h2
      subst h2
      rfl
    · split at h
      · injection h with h2
        subst h2
        rfl
      · injection h with h2
        subst h2
        rfl

lemma ec_auth_token_name (tbl : String → List (String × String))
    (env : ElastiCacheEnv) (now : Nat) (r : CheckResult)
    (h : ElastiCacheChecks.CheckAuthToken tbl env now = Except.ok r) :
    r.Name = "ElastiCache Redis AUTH Token" := by
  simp only [ElastiCacheChecks.CheckAuthToken] at h
  split at h
  · exact Except.noConfusion h
  · split at h
    · injection h with h2
      subst h2
      rfl
    · split at h
      · injection h with h2
        subst h2
        rfl
      · injection h with h2
        subst h2
        rfl

lemma ec_backup_retention_name (tbl : String → List (String × String))
    (env : ElastiCacheEnv) (now : Nat) (r : CheckResult)
    (h : ElastiCacheChecks.CheckBackupRetention tbl env now = Except.ok r) :
    r.Name = "ElastiCache Backup Retention" := by
  simp only [ElastiCacheChecks.CheckBackupRetention] at h
  split at h
  · exact Except.noConfusion h
  · split at h
    · injection h with h2
      subst h2
      rfl
    · split at h
      · injection h with h2
        subst h2
        rfl
      · injection h with h2
        subst h2
        rfl

lemma sm_notebook_encryption_name (tbl : String → List (String × String))
    (env : SageMakerEnv) (now : Nat) (r : CheckResult)
    (h : SageMakerChecks.CheckNotebookEncryption tbl env now = Except.ok r) :
    r.Name = "SageMaker Notebook Encryption" := by
  simp only [SageMakerChecks.CheckNotebookEncryption] at h
  split at h
  · exact Except.noConfusion h
  · split at h
    · injection h with h2
      subst h2
      rfl
    · split at h
      · injection h with h2
        subst h2
        rfl
      · injection h with h2
        subst h2
        rfl

lemma sm_direct_internet_name (tbl : String → List (String × String))
    (env : SageMakerEnv) (now : Nat) (r : CheckResult)
    (h : SageMakerChecks.CheckNotebookDirectInternet tbl env now = Except.ok r) :
    r.Name = "SageMaker Direct Internet Access" := by
  simp only [SageMakerChecks.CheckNotebookDirectInternet] at h
  split at h
  · exact Except.noConfusion h
  · split at h
    · injection h with h2
      subst h2
      rfl
    · split at h
      · injection h with h2
        subst h2
        rfl
      · injection h with h2
        subst h2
        rfl

lemma sm_root_access_name (tbl : String → List (String × String))
    (env : SageMakerEnv) (now : Nat) (r : CheckResult)
    (h : SageMakerChecks.CheckNotebookRootAccess tbl env now = Except.ok r) :
    r.Name = "SageMaker Root Access" := by
  simp only [SageMakerChecks.CheckNotebookRootAccess] at h
  split at h
  · exact Except.noConfusion h
  · split at h
    · injection h with h2
      subst h2
      rfl
    · split at h
      · injection h with h2
        subst h2
        rfl
      · injection h with h2
        subst h2
        rfl

lemma rs_encryption_name (tbl : String → List (String × String))
    (env : RedshiftEnv) (now : Nat) (r : CheckResult)
    (h : RedshiftChecks.CheckClusterEncryption tbl env now = Except.ok r) :
    r.Name = "Redshift Cluster Encryption" := by
  simp only [RedshiftChecks.CheckClusterEncryption] at h
  split at h
  · exact Except.noConfusion h
  · split at h
    · injection h with h2
      subst h2
      rfl
    · split at h
      · injection h with h2
        subst h2
        rfl
      · injection h with h2
        subst h2
        rfl

lemma rs_public_access_name (tbl : String → List (String × String))
    (env : RedshiftEnv) (now : Nat) (r : CheckResult)
    (h : RedshiftChecks.CheckClusterPublicAccess tbl env now = Except.ok r) :
    r.Name = "Redshift Public Access" := by
  simp only [RedshiftChecks.CheckClusterPublicAccess] at h
  split at h
  · exact Except.noConfusion h
  · split at h
    · injection h with h2
      subst h2
      rfl
    · split at h
      · injection h with h2
        subst h2
        rfl
      · injection h with h2
        subst h2
        rfl

lemma rs_logging_name (tbl : String → List (String × String))
    (env : RedshiftEnv) (now : Nat) (r : CheckResult)
    (h : RedshiftChecks.CheckClusterLogging tbl env now = Except.ok r) :
    r.Name = "Redshift Audit Logging" := by
  simp only [RedshiftChecks.CheckClusterLogging] at h
  split at h
  · exact Except.noConfusion h
  · split at h
    · injection h with h2
      subst h2
      rfl
    · split at h
      · injection h with h2
        subst h2
        rfl
      · injection h with h2
        subst h2
        rfl

lemma rs_ssl_name (tbl : String → List (String × String))
    (env : RedshiftEnv) (now : Nat) (r : CheckResult)
    (h : RedshiftChecks.CheckClusterSSL tbl env now = Except.ok r) :
    r.Name = "Redshift SSL Required" := by
  simp only [RedshiftChecks.CheckClusterSSL] at h
  split at h
  · exact Except.noConfusion h
  · split at h
    · injection h with h2
      subst h2
      rfl
    · split at h
      · injection h with h2
        subst h2
        rfl
      · injection h with h2
        subst h2
        rfl

lemma rs_version_upgrade_name (tbl : String → List (String × String))
    (env : RedshiftEnv) (now : Nat) (r : CheckResult)
    (h : RedshiftChecks.CheckClusterVersionUpgrade tbl env now = Except.ok r) :
    r.Name = "Redshift Auto Version Upgrade" := by
  simp only [RedshiftChecks.CheckClusterVersionUpgrade] at h
  split at h
  · exact Except.noConfusion h
  · split at h
    · injection h with h2
      subst h2
      rfl
    · split at h
      · injection h with h2
        subst h2
        rfl
      · injection h with h2
        subst h2
        rfl

lemma rs_backup_retention_name (tbl : String → List (String × String))
    (env : RedshiftEnv) (now : Nat) (r : CheckResult)
    (h : RedshiftChecks.CheckClusterBackupRetention tbl env now = Except.ok r) :
    r.Name = "Redshift Backup Retention" := by
  simp only [RedshiftChecks.CheckClusterBackupRetention] at h
  split at h
  · exact Except.noConfusion h
  · split at h
    · injection h with h2
      subst h2
      rfl
    · split at h
      · injection h with h2
        subst h2
        rfl
      · injection h with h2
        subst h2
        rfl

lemma rs_routing_name (tbl : String → List (String × String))
    (env : RedshiftEnv) (now : Nat) (r : CheckResult)
    (h : RedshiftChecks.CheckClusterEnhancedVPCRouting tbl env now = Except.ok r) :
    r.Name = "Redshift Enhanced VPC Routing" := by
  simp only [RedshiftChecks.CheckClusterEnhancedVPCRouting] at h
  split at h
  · exact Except.noConfusion h
  · split at h
    · injection h with h2
      subst h2
      rfl
    · split at h
      · injection h with h2
        subst h2
        rfl
      · injection h with h2
        subst h2
        rfl

lemma os_run_mem (tbl : String → List (String × String))
    (env : OpenSearchEnv) (now : Nat) (r : CheckResult)
    (hr : r ∈ (OpenSearchChecks.Run tbl env now).1) :
    OpenSearchChecks.CheckEncryptionAtRest tbl env now = Except.ok r ∨
    OpenSearchChecks.CheckNodeToNodeEncryption tbl env now = Except.ok r ∨
    OpenSearchChecks.CheckHTTPS tbl env now = Except.ok r ∨
    OpenSearchChecks.CheckVPCDeployment tbl env now = Except.ok r ∨
    OpenSearchChecks.CheckAuditLogs tbl env now = Except.ok r ∨
    OpenSearchChecks.CheckFineGrainedAccessControl tbl env now = Except.ok r := by
  simp only [OpenSearchChecks.Run] at hr
  rcases mem_runAppend hr with hr | h6
  · rcases mem_runAppend hr with hr | h5
    · rcases mem_runAppend hr with hr | h4
      · rcases mem_runAppend hr with hr | h3
        · rcases mem_runAppend hr with hr | h2
          · rcases mem_runAppend hr with h0 | h1
            · exact absurd h0 (by simp)
            · exact Or.inl h1
          · exact Or.inr (Or.inl h2)
        · exact Or.inr (Or.inr (Or.inl h3))
      · exact Or.inr (Or.inr (Or.inr (Or.inl h4)))
    · exact Or.inr (Or.inr (Or.inr (Or.inr (Or.inl h5))))
  · exact Or.inr (Or.inr (Or.inr (Or.inr (Or.inr (h6)))))

lemma ec_run_mem (tbl : String → List (String × String))
    (env : ElastiCacheEnv) (now : Nat) (r : CheckResult)
    (hr : r ∈ (ElastiCacheChecks.Run tbl env now).1) :
    ElastiCacheChecks.CheckEncryptionAtRest tbl env now = Except.ok r ∨
    ElastiCacheChecks.CheckEncryptionInTransit tbl env now = Except.ok r ∨
    ElastiCacheChecks.CheckAutoMinorVersionUpgrade tbl env now = Except.ok r ∨
    ElastiCacheChecks.CheckAuthToken tbl env now = Except.ok r ∨
    ElastiCacheChecks.CheckBackupRetention tbl env now = Except.ok r := by
  simp only [ElastiCacheChecks.Run] at hr
  rcases mem_runAppend hr with hr | h5
  · rcases mem_runAppend hr with hr | h4
    · rcases mem_runAppend hr with hr | h3
      · rcases mem_runAppend hr with hr | h2
        · rcases mem_runAppend hr with h0 | h1
          · exact absurd h0 (by simp)
          · exact Or.inl h1
        · exact Or.inr (Or.inl h2)
      · exact Or.inr (Or.inr (Or.inl h3))
    · exact Or.inr (Or.inr (Or.inr (Or.inl h4)))
  · exact Or.inr (Or.inr (Or.inr (Or.inr (h5))))

lemma sm_run_mem (tbl : String → List (String × String))
    (env : SageMakerEnv) (now : Nat) (r : CheckResult)
    (hr : r ∈ (SageMakerChecks.Run tbl env now).1) :
    SageMakerChecks.CheckNotebookEncryption tbl env now = Except.ok r ∨
    SageMakerChecks.CheckNotebookDirectInternet tbl env now = Except.ok r ∨
    SageMakerChecks.CheckNotebookRootAccess tbl env now = Except.ok r ∨
    SageMakerChecks.CheckEndpointEncryption tbl env now = Except.ok r ∨
    SageMakerChecks.CheckTrainingJobEncryption tbl env now = Except.ok r ∨
    SageMakerChecks.CheckModelNetworkIsolation tbl env now = Except.ok r := by
  simp only [SageMakerChecks.Run] at hr
  rcases mem_runAppend hr with hr | h6
  · rcases mem_runAppend hr with hr | h5
    · rcases mem_runAppend hr with hr | h4
      · rcases mem_runAppend hr with hr | h3
        · rcases mem_runAppend hr with hr | h2
          · rcases mem_runAppend hr with h0 | h1
            · exact absurd h0 (by simp)
            · exact Or.inl h1
          · exact Or.inr (Or.inl h2)
        · exact Or.inr (Or.inr (Or.inl h3))
      · exact Or.inr (Or.inr (Or.inr (Or.inl h4)))
    · exact Or.inr (Or.inr (Or.inr (Or.inr (Or.inl h5))))
  · exact Or.inr (Or.inr (Or.inr (Or.inr (Or.inr (h6)))))

lemma rs_run_mem (tbl : String → List (String × String))
    (env : RedshiftEnv) (now : Nat) (r : CheckResult)
    (hr : r ∈ (RedshiftChecks.Run tbl env now).1) :
    RedshiftChecks.CheckClusterEncryption tbl env now = Except.ok r ∨
    RedshiftChecks.CheckClusterPublicAccess tbl env now = Except.ok r ∨
    RedshiftChecks.CheckClusterLogging tbl env now = Except.ok r ∨
    RedshiftChecks.CheckClusterSSL tbl env now = Except.ok r ∨
    RedshiftChecks.CheckClusterVersionUpgrade tbl env now = Except.ok r ∨
    RedshiftChecks.CheckClusterBackupRetention tbl env now = Except.ok r ∨
    RedshiftChecks.CheckClusterEnhancedVPCRouting tbl env now = Except.ok r := by
  simp only [RedshiftChecks.Run] at hr
  rcases mem_runAppend hr with hr | h7
  · rcases mem_runAppend hr with hr | h6
    · rcases mem_runAppend hr with hr | h5
      · rcases mem_runAppend hr with hr | h4
        · rcases mem_runAppend hr with hr | h3
          · rcases mem_runAppend hr with hr | h2
            · rcases mem_runAppend hr with h0 | h1
              · exact absurd h0 (by simp)
              · exact Or.inl h1
            · exact Or.inr (Or.inl h2)
          · exact Or.inr (Or.inr (Or.inl h3))
        · exact Or.inr (Or.inr (Or.inr (Or.inl h4)))
      · exact Or.inr (Or.inr (Or.inr (Or.inr (Or.inl h5))))
    · exact Or.inr (Or.inr (Or.inr (Or.inr (Or.inr (Or.inl h6)))))
  · exact Or.inr (Or.inr (Or.inr (Or.inr (Or.inr (Or.inr (h7))))))

/-- C3 amended: for every one of the 24 sub-checks of the four
aggregation loops, a sub-check that returns an error is excluded from
the Run result set — no result bearing its Name appears, so its
findings are absent and never converted into a FAIL or PASS result —
but the error itself is discarded: Run still returns a nil error and no
omissions list, so the caller cannot tell how many checks could not
run. -/
theorem failing_check_excluded_and_error_discarded :
    (∀ tbl (env : OpenSearchEnv) now e,
      OpenSearchChecks.CheckEncryptionAtRest tbl env now = Except.error e →
      (OpenSearchChecks.Run tbl env now).2 = none ∧
      ∀ r ∈ (OpenSearchChecks.Run tbl env now).1, r.Name ≠ "OpenSearch Encryption at Rest") ∧
    (∀ tbl (env : OpenSearchEnv) now e,
      OpenSearchChecks.CheckNodeToNodeEncryption tbl env now = Except.error e →
      (OpenSearchChecks.Run tbl env now).2 = none ∧
      ∀ r ∈ (OpenSearchChecks.Run tbl env now).1, r.Name ≠ "OpenSearch Node-to-Node Encryption") ∧
    (∀ tbl (env : OpenSearchEnv) now e,
      OpenSearchChecks.CheckHTTPS tbl env now = Except.error e →
      (OpenSearchChecks.Run tbl env now).2 = none ∧
      ∀ r ∈ (OpenSearchChecks.Run tbl env now).1, r.Name ≠ "OpenSearch HTTPS Required") ∧
    (∀ tbl (env : OpenSearchEnv) now e,
      OpenSearchChecks.CheckVPCDeployment tbl env now = Except.error e →
      (OpenSearchChecks.Run tbl env now).2 = none ∧
      ∀ r ∈ (OpenSearchChecks.Run tbl env now).1, r.Name ≠ "OpenSearch VPC Deployment") ∧
    (∀ tbl (env : OpenSearchEnv) now e,
      OpenSearchChecks.CheckAuditLogs tbl env now = Except.error e →
      (OpenSearchChecks.Run tbl env now).2 = none ∧
      ∀ r ∈ (OpenSearchChecks.Run tbl env now).1, r.Name ≠ "OpenSearch Audit Logs") ∧
    (∀ tbl (env : OpenSearchEnv) now e,
      OpenSearchChecks.CheckFineGrainedAccessControl tbl env now = Except.error e →
      (OpenSearchChecks.Run tbl env now).2 = none ∧
      ∀ r ∈ (OpenSearchChecks.Run tbl env now).1, r.Name ≠ "OpenSearch Fine-Grained Access Control") ∧
    (∀ tbl (env : ElastiCacheEnv) now e,
      ElastiCacheChecks.CheckEncryptionAtRest tbl env now = Except.error e →
      (ElastiCacheChecks.Run tbl env now).2 = none ∧
      ∀ r ∈ (ElastiCacheChecks.Run tbl env now).1, r.Name ≠ "ElastiCache Encryption at Rest") ∧
    (∀ tbl (env : ElastiCacheEnv) now e,
      ElastiCacheChecks.CheckEncryptionInTransit tbl env now = Except.error e →
      (ElastiCacheChecks.Run tbl env now).2 = none ∧
      ∀ r ∈ (ElastiCacheChecks.Run tbl env now).1, r.Name ≠ "ElastiCache Encryption in Transit") ∧
    (∀ tbl (env : ElastiCacheEnv) now e,
      ElastiCacheChecks.CheckAutoMinorVersionUpgrade tbl env now = Except.error e →
      (ElastiCacheChecks.Run tbl env now).2 = none ∧
      ∀ r ∈ (ElastiCacheChecks.Run tbl env now).1, r.Name ≠ "ElastiCache Auto Minor Version Upgrade") ∧
    (∀ tbl (env : ElastiCacheEnv) now e,
      ElastiCacheChecks.CheckAuthToken tbl env now = Except.error e →
      (ElastiCacheChecks.Run tbl env now).2 = none ∧
      ∀ r ∈ (ElastiCacheChecks.Run tbl env now).1, r.Name ≠ "ElastiCache Redis AUTH Token") ∧
    (∀ tbl (env : ElastiCacheEnv) now e,
      ElastiCacheChecks.CheckBackupRetention tbl env now = Except.error e →
      (ElastiCacheChecks.Run tbl env now).2 = none ∧
      ∀ r ∈ (ElastiCacheChecks.Run tbl env now).1, r.Name ≠ "ElastiCache Backup Retention") ∧
    (∀ tbl (env : SageMakerEnv) now e,
      SageMakerChecks.CheckNotebookEncryption tbl env now = Except.error e →
      (SageMakerChecks.Run tbl env now).2 = none ∧
      ∀ r ∈ (SageMakerChecks.Run tbl env now).1, r.Name ≠ "SageMaker Notebook Encryption") ∧
    (∀ tbl (env : SageMakerEnv) now e,
      SageMakerChecks.CheckNotebookDirectInternet tbl env now = Except.error e →
      (SageMakerChecks.Run tbl env now).2 = none ∧
      ∀ r ∈ (SageMakerChecks.Run tbl env now).1, r.Name ≠ "SageMaker Direct Internet Access") ∧
    (∀ tbl (env : SageMakerEnv) now e,
      SageMakerChecks.CheckNotebookRootAccess tbl env now = Except.error e →
      (SageMakerChecks.Run tbl env now).2 = none ∧
      ∀ r ∈ (SageMakerChecks.Run tbl env now).1, r.Name ≠ "SageMaker Root Access") ∧
    (∀ tbl (env : SageMakerEnv) now e,
      SageMakerChecks.CheckEndpointEncryption tbl env now = Except.error e →
      (SageMakerChecks.Run tbl env now).2 = none ∧
      ∀ r ∈ (SageMakerChecks.Run tbl env now).1, r.Name ≠ "SageMaker Endpoint Encryption") ∧
    (∀ tbl (env : SageMakerEnv) now e,
      SageMakerChecks.CheckTrainingJobEncryption tbl env now = Except.error e →
      (SageMakerChecks.Run tbl env now).2 = none ∧
      ∀ r ∈ (SageMakerChecks.Run tbl env now).1, r.Name ≠ "SageMaker Training Job Encryption") ∧
    (∀ tbl (env : SageMakerEnv) now e,
      SageMakerChecks.CheckModelNetworkIsolation tbl env now = Except.error e →
      (SageMakerChecks.Run tbl env now).2 = none ∧
      ∀ r ∈ (SageMakerChecks.Run tbl env now).1, r.Name ≠ "SageMaker Model Network Isolation") ∧
    (∀ tbl (env : RedshiftEnv) now e,
      RedshiftChecks.CheckClusterEncryption tbl env now = Except.error e →
      (RedshiftChecks.Run tbl env now).2 = none ∧
      ∀ r ∈ (RedshiftChecks.Run tbl env now).1, r.Name ≠ "Redshift Cluster Encryption") ∧
    (∀ tbl (env : RedshiftEnv) now e,
      RedshiftChecks.CheckClusterPublicAccess tbl env now = Except.error e →
      (RedshiftChecks.Run tbl env now).2 = none ∧
      ∀ r ∈ (RedshiftChecks.Run tbl env now).1, r.Name ≠ "Redshift Public Access") ∧
    (∀ tbl (env : RedshiftEnv) now e,
      RedshiftChecks.CheckClusterLogging tbl env now = Except.error e →
      (RedshiftChecks.Run tbl env now).2 = none ∧
      ∀ r ∈ (RedshiftChecks.Run tbl env now).1, r.Name ≠ "Redshift Audit Logging") ∧
    (∀ tbl (env : RedshiftEnv) now e,
      RedshiftChecks.CheckClusterSSL tbl env now = Except.error e →
      (RedshiftChecks.Run tbl env now).2 = none ∧
      ∀ r ∈ (RedshiftChecks.Run tbl env now).1, r.Name ≠ "Redshift SSL Required") ∧
    (∀ tbl (env : RedshiftEnv) now e,
      RedshiftChecks.CheckClusterVersionUpgrade tbl env now = Except.error e →
      (RedshiftChecks.Run tbl env now).2 = none ∧
      ∀ r ∈ (RedshiftChecks.Run tbl env now).1, r.Name ≠ "Redshift Auto Version Upgrade") ∧
    (∀ tbl (env : RedshiftEnv) now e,
      RedshiftChecks.CheckClusterBackupRetention tbl env now = Except.error e →
      (RedshiftChecks.Run tbl env now).2 = none ∧
      ∀ r ∈ (RedshiftChecks.Run tbl env now).1, r.Name ≠ "Redshift Backup Retention") ∧
    (∀ tbl (env : RedshiftEnv) now e,
      RedshiftChecks.CheckClusterEnhancedVPCRouting tbl env now = Except.error e →
      (RedshiftChecks.Run tbl env now).2 = none ∧
      ∀ r ∈ (RedshiftChecks.Run tbl env now).1, r.Name ≠ "Redshift Enhanced VPC Routing") := by
  refine ⟨?_, ?_, ?_, ?_, ?_, ?_, ?_, ?_, ?_, ?_, ?_, ?_, ?_, ?_, ?_, ?_, ?_, ?_, ?_, ?_, ?_, ?_, ?_, ?_⟩
  · intro tbl env now e h
    refine ⟨rfl, ?_⟩
    intro r hr
    rcases os_run_mem tbl env now r hr with h1 | h2 | h3 | h4 | h5 | h6
    · rw [h] at h1
      exact Except.noConfusion h1
    · rw [os_node_to_node_name tbl env now r h2]
      decide
    · rw [os_https_name tbl env now r h3]
      decide
    · rw [os_vpc_name tbl env now r h4]
      decide
    · rw [os_audit_logs_name tbl env now r h5]
      decide
    · rw [os_fgac_name tbl env now r h6]
      decide
  · intro tbl env now e h
    refine ⟨rfl, ?_⟩
    intro r hr
    rcases os_run_mem tbl env now r hr with h1 | h2 | h3 | h4 | h5 | h6
    · rw [os_encryption_at_rest_name tbl env now r h1]
      decide
    · rw [h] at h2
      exact Except.noConfusion h2
    · rw [os_https_name tbl env now r h3]
      decide
    · rw [os_vpc_name tbl env now r h4]
      decide
    · rw [os_audit_logs_name tbl env now r h5]
      decide
    · rw [os_fgac_name tbl env now r h6]
      decide
  · intro tbl env now e h
    refine ⟨rfl, ?_⟩
    intro r hr
    rcases os_run_mem tbl env now r hr with h1 | h2 | h3 | h4 | h5 | h6
    · rw [os_encryption_at_rest_name tbl env now r h1]
      decide
    · rw [os_node_to_node_name tbl env now r h2]
      decide
    · rw [h] at h3
      exact Except.noConfusion h3
    · rw [os_vpc_name tbl env now r h4]
      decide
    · rw [os_audit_logs_name tbl env now r h5]
      decide
    · rw [os_fgac_name tbl env now r h6]
      decide
  · intro tbl env now e h
    refine ⟨rfl, ?_⟩
    intro r hr
    rcases os_run_mem tbl env now r hr with h1 | h2 | h3 | h4 | h5 | h6
    · rw [os_encryption_at_rest_name tbl env now r h1]
      decide
    · rw [os_node_to_node_name tbl env now r h2]
      decide
    · rw [os_https_name tbl env now r h3]
      decide
    · rw [h] at h4
      exact Except.noConfusion h4
    · rw [os_audit_logs_name tbl env now r h5]
      decide
    · rw [os_fgac_name tbl env now r h6]
      decide
  · intro tbl env now e h
    refine ⟨rfl, ?_⟩
    intro r hr
    rcases os_run_mem tbl env now r hr with h1 | h2 | h3 | h4 | h5 | h6
    · rw [os_encryption_at_rest_name tbl env now r h1]
      decide
    · rw [os_node_to_node_name tbl env now r h2]
      decide
    · rw [os_https_name tbl env now r h3]
      decide
    · rw [os_vpc_name tbl env now r h4]
      decide
    · rw [h] at h5
      exact Except.noConfusion h5
    · rw [os_fgac_name tbl env now r h6]
      decide
  · intro tbl env now e h
    refine ⟨rfl, ?_⟩
    intro r hr
    rcases os_run_mem tbl env now r hr with h1 | h2 | h3 | h4 | h5 | h6
    · rw [os_encryption_at_rest_name tbl env now r h1]
      decide
    · rw [os_node_to_node_name tbl env now r h2]
      decide
    · rw [os_https_name tbl env now r h3]
      decide
    · rw [os_vpc_name tbl env now r h4]
      decide
    · rw [os_audit_logs_name tbl env now r h5]
      decide
    · rw [h] at h6
      exact Except.noConfusion h6
  · intro tbl env now e h
    refine ⟨rfl, ?_⟩
    intro r hr
    rcases ec_run_mem tbl env now r hr with h1 | h2 | h3 | h4 | h5
    · rw [h] at h1
      exact Except.noConfusion h1
    · rw [ec_transit_name tbl env now r h2]
      decide
    · rw [ec_auto_upgrade_name tbl env now r h3]
      decide
    · rw [ec_auth_token_name tbl env now r h4]
      decide
    · rw [ec_backup_retention_name tbl env now r h5]
      decide
  · intro tbl env now e h
    refine ⟨rfl, ?_⟩
    intro r hr
    rcases ec_run_mem tbl env now r hr with h1 | h2 | h3 | h4 | h5
    · rw [ec_encryption_at_rest_name tbl env now r h1]
      decide
    · rw [h] at h2
      exact Except.noConfusion h2
    · rw [ec_auto_upgrade_name tbl env now r h3]
      decide
    · rw [ec_auth_token_name tbl env now r h4]
      decide
    · rw [ec_backup_retention_name tbl env now r h5]
      decide
  · intro tbl env now e h
    refine ⟨rfl, ?_⟩
    intro r hr
    rcases ec_run_mem tbl env now r hr with h1 | h2 | h3 | h4 | h5
    · rw [ec_encryption_at_rest_name tbl env now r h1]
      decide
    · rw [ec_transit_name tbl env now r h2]
      decide
    · rw [h] at h3
      exact Except.noConfusion h3
    · rw [ec_auth_token_name tbl env now r h4]
      decide
    · rw [ec_backup_retention_name tbl env now r h5]
      decide
  · intro tbl env now e h
    refine ⟨rfl, ?_⟩
    intro r hr
    rcases ec_run_mem tbl env now r hr with h1 | h2 | h3 | h4 | h5
    · rw [ec_encryption_at_rest_name tbl env now r h1]
      decide
    · rw [ec_transit_name tbl env now r h2]
      decide
    · rw [ec_auto_upgrade_name tbl env now r h3]
      decide
    · rw [h] at h4
      exact Except.noConfusion h4
    · rw [ec_backup_retention_name tbl env now r h5]
      decide
  · intro tbl env now e h
    refine ⟨rfl, ?_⟩
    intro r hr
    rcases ec_run_mem tbl env now r hr with h1 | h2 | h3 | h4 | h5
    · rw [ec_encryption_at_rest_name tbl env now r h1]
      decide
    · rw [ec_transit_name tbl env now r h2]
      decide
    · rw [ec_auto_upgrade_name tbl env now r h3]
      decide
    · rw [ec_auth_token_name tbl env now r h4]
      decide
    · rw [h] at h5
      exact Except.noConfusion h5
  · intro tbl env now e h
    refine ⟨rfl, ?_⟩
    intro r hr
    rcases sm_run_mem tbl env now r hr with h1 | h2 | h3 | h4 | h5 | h6
    · rw [h] at h1
      exact Except.noConfusion h1
    · rw [sm_direct_internet_name tbl env now r h2]
      decide
    · rw [sm_root_access_name tbl env now r h3]
      decide
    · rw [sm_endpoint_check_name tbl env now r h4]
      decide
    · rw [sm_training_check_name tbl env now r h5]
      decide
    · rw [sm_model_check_name tbl env now r h6]
      decide
  · intro tbl env now e h
    refine ⟨rfl, ?_⟩
    intro r hr
    rcases sm_run_mem tbl env now r hr with h1 | h2 | h3 | h4 | h5 | h6
    · rw [sm_notebook_encryption_name tbl env now r h1]
      decide
    · rw [h] at h2
      exact Except.noConfusion h2
    · rw [sm_root_access_name tbl env now r h3]
      decide
    · rw [sm_endpoint_check_name tbl env now r h4]
      decide
    · rw [sm_training_check_name tbl env now r h5]
      decide
    · rw [sm_model_check_name tbl env now r h6]
      decide
  · intro tbl env now e h
    refine ⟨rfl, ?_⟩
    intro r hr
    rcases sm_run_mem tbl env now r hr with h1 | h2 | h3 | h4 | h5 | h6
    · rw [sm_notebook_encryption_name tbl env now r h1]
      decide
    · rw [sm_direct_internet_name tbl env now r h2]
      decide
    · rw [h] at h3
      exact Except.noConfusion h3
    · rw [sm_endpoint_check_name tbl env now r h4]
      decide
    · rw [sm_training_check_name tbl env now r h5]
      decide
    · rw [sm_model_check_name tbl env now r h6]
      decide
  · intro tbl env now e h
    refine ⟨rfl, ?_⟩
    intro r hr
    rcases sm_run_mem tbl env now r hr with h1 | h2 | h3 | h4 | h5 | h6
    · rw [sm_notebook_encryption_name tbl env now r h1]
      decide
    · rw [sm_direct_internet_name tbl env now r h2]
      decide
    · rw [sm_root_access_name tbl env now r h3]
      decide
    · rw [h] at h4
      exact Except.noConfusion h4
    · rw [sm_training_check_name tbl env now r h5]
      decide
    · rw [sm_model_check_name tbl env now r h6]
      decide
  · intro tbl env now e h
    refine ⟨rfl, ?_⟩
    intro r hr
    rcases sm_run_mem tbl env now r hr with h1 | h2 | h3 | h4 | h5 | h6
    · rw [sm_notebook_encryption_name tbl env now r h1]
      decide
    · rw [sm_direct_internet_name tbl env now r h2]
      decide
    · rw [sm_root_access_name tbl env now r h3]
      decide
    · rw [sm_endpoint_check_name tbl env now r h4]
      decide
    · rw [h] at h5
      exact Except.noConfusion h5
    · rw [sm_model_check_name tbl env now r h6]
      decide
  · intro tbl env now e h
    refine ⟨rfl, ?_⟩
    intro r hr
    rcases sm_run_mem tbl env now r hr with h1 | h2 | h3 | h4 | h5 | h6
    · rw [sm_notebook_encryption_name tbl env now r h1]
      decide
    · rw [sm_direct_internet_name tbl env now r h2]
      decide
    · rw [sm_root_access_name tbl env now r h3]
      decide
    · rw [sm_endpoint_check_name tbl env now r h4]
      decide
    · rw [sm_training_check_name tbl env now r h5]
      decide
    · rw [h] at h6
      exact Except.noConfusion h6
  · intro tbl env now e h
    refine ⟨rfl, ?_⟩
    intro r hr
    rcases rs_run_mem tbl env now r hr with h1 | h2 | h3 | h4 | h5 | h6 | h7
    · rw [h] at h1
      exact Except.noConfusion h1
    · rw [rs_public_access_name tbl env now r h2]
      decide
    · rw [rs_logging_name tbl env now r h3]
      decide
    · rw [rs_ssl_name tbl env now r h4]
      decide
    · rw [rs_version_upgrade_name tbl env now r h5]
      decide
    · rw [rs_backup_retention_name tbl env now r h6]
      decide
    · rw [rs_routing_name tbl env now r h7]
      decide
  · intro tbl env now e h
    refine ⟨rfl, ?_⟩
    intro r hr
    rcases rs_run_mem tbl env now r hr with h1 | h2 | h3 | h4 | h5 | h6 | h7
    · rw [rs_encryption_name tbl env now r h1]
      decide
    · rw [h] at h2
      exact Except.noConfusion h2
    · rw [rs_logging_name tbl env now r h3]
      decide
    · rw [rs_ssl_name tbl env now r h4]
      decide
    · rw [rs_version_upgrade_name tbl env now r h5]
      decide
    · rw [rs_backup_retention_name tbl env now r h6]
      decide
    · rw [rs_routing_name tbl env now r h7]
      decide
  · intro tbl env now e h
    refine ⟨rfl, ?_⟩
    intro r hr
    rcases rs_run_mem tbl env now r hr with h1 | h2 | h3 | h4 | h5 | h6 | h7
    · rw [rs_encryption_name tbl env now r h1]
      decide
    · rw [rs_public_access_name tbl env now r h2]
      decide
    · rw [h] at h3
      exact Except.noConfusion h3
    · rw [rs_ssl_name tbl env now r h4]
      decide
    · rw [rs_version_upgrade_name tbl env now r h5]
      decide
    · rw [rs_backup_retention_name tbl env now r h6]
      decide
    · rw [rs_routing_name tbl env now r h7]
      decide
  · intro tbl env now e h
    refine ⟨rfl, ?_⟩
    intro r hr
    rcases rs_run_mem tbl env now r hr with h1 | h2 | h3 | h4 | h5 | h6 | h7
    · rw [rs_encryption_name tbl env now r h1]
      decide
    · rw [rs_public_access_name tbl env now r h2]
      decide
    · rw [rs_logging_name tbl env now r h3]
      decide
    · rw [h] at h4
      exact Except.noConfusion h4
    · rw [rs_version_upgrade_name tbl env now r h5]
      decide
    · rw [rs_backup_retention_name tbl env now r h6]
      decide
    · rw [rs_routing_name tbl env now r h7]
      decide
  · intro tbl env now e h
    refine ⟨rfl, ?_⟩
    intro r hr
    rcases rs_run_mem tbl env now r hr with h1 | h2 | h3 | h4 | h5 | h6 | h7
    · rw [rs_encryption_name tbl env now r h1]
      decide
    · rw [rs_public_access_name tbl env now r h2]
      decide
    · rw [rs_logging_name tbl env now r h3]
      decide
    · rw [rs_ssl_name tbl env now r h4]
      decide
    · rw [h] at h5
      exact Except.noConfusion h5
    · rw [rs_backup_retention_name tbl env now r h6]
      decide
    · rw [rs_routing_name tbl env now r h7]
      decide
  · intro tbl env now e h
    refine ⟨rfl, ?_⟩
    intro r hr
    rcases rs_run_mem tbl env now r hr with h1 | h2 | h3 | h4 | h5 | h6 | h7
    · rw [rs_encryption_name tbl env now r h1]
      decide
    · rw [rs_public_access_name tbl env now r h2]
      decide
    · rw [rs_logging_name tbl env now r h3]
      decide
    · rw [rs_ssl_name tbl env now r h4]
      decide
    · rw [rs_version_upgrade_name tbl env now r h5]
      decide
    · rw [h] at h6
      exact Except.noConfusion h6
    · rw [rs_routing_name tbl env now r h7]
      decide
  · intro tbl env now e h
    refine ⟨rfl, ?_⟩
    intro r hr
    rcases rs_run_mem tbl env now r hr with h1 | h2 | h3 | h4 | h5 | h6 | h7
    · rw [rs_encryption_name tbl env now r h1]
      decide
    · rw [rs_public_access_name tbl env now r h2]
      decide
    · rw [rs_logging_name tbl env now r h3]
      decide
    · rw [rs_ssl_name tbl env now r h4]
      decide
    · rw [rs_version_upgrade_name tbl env now r h5]
      decide
    · rw [rs_backup_retention_name tbl env now r h6]
      decide
    · rw [h] at h7
      exact Except.noConfusion h7

/-- C3 amended witness: an OpenSearch account whose ListDomainNames
call is denied. -/
theorem failing_check_excluded_and_error_discarded_witness :
    (OpenSearchChecks.Run tblEmpty osEnvListDenied 0).2 = none ∧
    ∀ r ∈ (OpenSearchChecks.Run tblEmpty osEnvListDenied 0).1,
      r.Name ≠ "OpenSearch Encryption at Rest" :=
  failing_check_excluded_and_error_discarded.1 tblEmpty osEnvListDenied 0
    ("AccessDenied: not authorized to perform es:ListDomainNames") (by rfl)


/-- C8.  After Cache.Save succeeds, both the timestamped scan file and
the "latest" file for the (provider, account, framework) key hold the
scan, and Cache.LoadLatest on that key returns it: the save/load pair
round-trips through the cache. -/
theorem cache_save_load_latest_roundtrip :
    ∀ (c : Cache) (fs : FileSys) (scan : CachedScan),
      readFile (c.Save fs scan)
        (filepathJoin c.basePath
          (c.getScanFilename scan.Provider scan.AccountID scan.Framework scan.Timestamp)) =
        some scan ∧
      readFile (c.Save fs scan)
        (filepathJoin c.basePath
          (c.getLatestFilename scan.Provider scan.AccountID scan.Framework)) = some scan ∧
      c.LoadLatest (c.Save fs scan) scan.Provider scan.AccountID scan.Framework =
        Except.ok scan := by
  intro c fs scan
  refine ⟨?_, ?_, ?_⟩
  · simp only [Cache.Save, writeFile, readFile, List.lookup]
    split
    · rfl
    · simp
  · simp only [Cache.Save, writeFile, readFile, List.lookup]
    simp
  · simp only [Cache.LoadLatest, Cache.loadFromFile, Cache.Save, writeFile, readFile,
      List.lookup]
    simp

lemma clearOlderThanLoop_isSome (c : Cache) (fs : FileSys) (cutoff : Nat) :
    ∀ entries : List DirEntry,
      (∀ e ∈ entries, e.isDir = false → 6 ≤ e.name.length) →
      (clearOlderThanLoop c fs cutoff entries).isSome = true := by
  intro entries
  induction entries with
  | nil => intro _; rfl
  | cons a t ih =>
    intro hall
    have ht : ∀ e ∈ t, e.isDir = false → 6 ≤ e.name.length :=
      fun e he => hall e (List.mem_cons_of_mem _ he)
    simp only [clearOlderThanLoop]
    split
    · exact ih ht
    · rename_i hdir
      have h6 : 6 ≤ a.name.length := by
        apply hall a (List.mem_cons_self _ _)
        simpa using hdir
      split
      · rename_i heq
        simp [goStringSliceTo, h6] at heq
      · split
        · exact ih ht
        · split
          · exact ih ht
          · split
            · rw [Option.isSome_map']
              exact ih ht
            · exact ih ht

lemma getCacheInfoScans_isSome (c : Cache) (fs : FileSys) :
    ∀ entries : List DirEntry,
      (∀ e ∈ entries, e.isDir = false → 6 ≤ e.name.length) →
      (getCacheInfoScans c fs entries).isSome = true := by
  intro entries
  induction entries with
  | nil => intro _; rfl
  | cons a t ih =>
    intro hall
    have ht : ∀ e ∈ t, e.isDir = false → 6 ≤ e.name.length :=
      fun e he => hall e (List.mem_cons_of_mem _ he)
    simp only [getCacheInfoScans]
    split
    · exact ih ht
    · split
      · exact ih ht
      · rename_i hdir hext
        have h6 : 6 ≤ a.name.length := by
          apply hall a (List.mem_cons_self _ _)
          simpa using hdir
        split
        · rename_i heq
          simp [goStringSliceTo, h6] at heq
        · split
          · exact ih ht
          · split
            · exact ih ht
            · rw [Option.isSome_map']
              exact ih ht

/-- C10 counterexample: a directory entry named "a" makes ClearOlderThan
panic (the entry.Name()[:6] slice is out of range), and an entry named
".json" — which passes the extension filter — makes GetCacheInfo panic
the same way. -/
theorem cache_short_name_panics :
    Cache.ClearOlderThan ⟨"/root/.auditkit/cache"⟩ [] [⟨"a", false, 0⟩] 100 10 = none ∧
    Cache.GetCacheInfo ⟨"/root/.auditkit/cache"⟩ [] [⟨".json", false, 0⟩] = none :=
  ⟨rfl, rfl⟩

/-- C10 amended: GetCacheInfo and ClearOlderThan complete without
panicking on every listing in which each file (non-directory) name has
at least 6 characters; a shorter file name makes the entry.Name()[:6]
slice panic (for GetCacheInfo the short name must also carry the .json
extension, i.e. be the name ".json", to reach the slice). -/
theorem cache_iteration_safe_for_long_names :
    ∀ (c : Cache) (fs : FileSys) (entries : List DirEntry) (now duration : Nat),
      (∀ e ∈ entries, e.isDir = false → 6 ≤ e.name.length) →
      (Cache.ClearOlderThan c fs entries now duration).isSome = true ∧
      (Cache.GetCacheInfo c fs entries).isSome = true := by
  intro c fs entries now duration hall
  constructor
  · exact clearOlderThanLoop_isSome c fs _ entries hall
  · simp only [Cache.GetCacheInfo, Option.isSome_map']
    exact getCacheInfoScans_isSome c fs entries hall

/-- C10 amended witness: a listing of one scan file and one latest file,
both with names of at least 6 characters. -/
theorem cache_iteration_safe_for_long_names_witness :
    (Cache.ClearOlderThan ⟨"/root/.auditkit/cache"⟩ []
      [⟨"scan-aws-123-soc2-42.json", false, 100⟩, ⟨"latest-aws-123-soc2.json", false, 90⟩]
      100 10).isSome = true ∧
    (Cache.GetCacheInfo ⟨"/root/.auditkit/cache"⟩ []
      [⟨"scan-aws-123-soc2-42.json", false, 100⟩,
        ⟨"latest-aws-123-soc2.json", false, 90⟩]).isSome = true :=
  cache_iteration_safe_for_long_names ⟨"/root/.auditkit/cache"⟩ []
    [⟨"scan-aws-123-soc2-42.json", false, 100⟩, ⟨"latest-aws-123-soc2.json", false, 90⟩]
    100 10 (by decide)

lemma le_foldl_max (xs : List Nat) (a : Nat) : a ≤ xs.foldl Nat.max a := by
  induction xs generalizing a with
  | nil => exact Nat.le_refl a
  | cons x t ih => exact Nat.le_trans (Nat.le_max_left a x) (ih (Nat.max a x))

lemma mem_le_foldl_max (xs : List Nat) (a : Nat) :
    ∀ x ∈ xs, x ≤ xs.foldl Nat.max a := by
  induction xs generalizing a with
  | nil => intro x hx; simp at hx
  | cons y t ih =>
    intro x hx
    rcases List.mem_cons.mp hx with h | h
    · subst h
      exact Nat.le_trans (Nat.le_max_right a x) (le_foldl_max t (Nat.max a x))
    · exact ih (Nat.max a y) x h

lemma foldl_max_le (xs : List Nat) (a c : Nat) (ha : a ≤ c)
    (hx : ∀ x ∈ xs, x ≤ c) : xs.foldl Nat.max a ≤ c := by
  induction xs generalizing a with
  | nil => exact ha
  | cons y t ih =>
    apply ih (Nat.max a y)
    · exact Nat.max_le.mpr ⟨ha, hx y (List.mem_cons_self _ _)⟩
    · exact fun x h => hx x (List.mem_cons_of_mem _ h)

lemma foldl_max_eq_or_mem (xs : List Nat) (a : Nat) :
    xs.foldl Nat.max a = a ∨ xs.foldl Nat.max a ∈ xs := by
  induction xs generalizing a with
  | nil => exact Or.inl rfl
  | cons y t ih =>
    rcases ih (Nat.max a y) with h | h
    · rcases Nat.le_total a y with hy | hy
      · right
        have hxy : Nat.max a y = y := Nat.max_eq_right hy
        rw [List.foldl_cons, h, hxy]
        exact List.mem_cons_self _ _
      · left
        have hxy : Nat.max a y = a := Nat.max_eq_left hy
        rw [List.foldl_cons, h, hxy]
    · right
      exact List.mem_cons_of_mem _ h

lemma statusRank_le_three (s : VerdictStatus) : statusRank s ≤ 3 := by
  cases s <;> decide

lemma statusRank_statusOfRank (m : Nat) (h3 : m ≤ 3) :
    statusRank (statusOfRank m) = m := by
  interval_cases m <;> decide

lemma collapseStatus_ne_nil (l : List VerdictStatus) (h : l ≠ []) :
    collapseStatus l = statusOfRank ((l.map statusRank).foldl Nat.max 0) := by
  cases l with
  | nil => exact absurd rfl h
  | cons a t => rfl

/-- C4.  For every verdict bucket with at least one contributing
result, the bucket Status is the highest-precedence Status among its
contributors under FAIL > WARN > MANUAL > PASS/INFO: the collapsed
rank is attained by a contributor and bounds every contributor, any
FAIL contributor forces a FAIL verdict, and the outcome is invariant
under permutation of the contributors. -/
theorem requirement_status_precedence :
    ∀ l : List VerdictStatus, l ≠ [] →
      (∃ s ∈ l, statusRank s = statusRank (collapseStatus l)) ∧
      (∀ s ∈ l, statusRank s ≤ statusRank (collapseStatus l)) ∧
      (VerdictStatus.FAIL ∈ l → collapseStatus l = VerdictStatus.FAIL) ∧
      (∀ l', l.Perm l' → collapseStatus l = collapseStatus l') := by
  intro l hne
  have hm3 : (l.map statusRank).foldl Nat.max 0 ≤ 3 := by
    apply foldl_max_le _ _ _ (by decide)
    intro x hx
    rcases List.mem_map.mp hx with ⟨s, _, rfl⟩
    exact statusRank_le_three s
  have hrank : statusRank (collapseStatus l) = (l.map statusRank).foldl Nat.max 0 := by
    rw [collapseStatus_ne_nil l hne, statusRank_statusOfRank _ hm3]
  refine ⟨?_, ?_, ?_, ?_⟩
  · rcases foldl_max_eq_or_mem (l.map statusRank) 0 with h0 | hmem
    · cases l with
      | nil => exact absurd rfl hne
      | cons s t =>
        refine ⟨s, List.mem_cons_self _ _, ?_⟩
        have hle : statusRank s ≤ ((s :: t).map statusRank).foldl Nat.max 0 :=
          mem_le_foldl_max _ _ _ (List.mem_map_of_mem _ (List.mem_cons_self _ _))
        rw [hrank] at *
        omega
    · rcases List.mem_map.mp hmem with ⟨s, hs, hsr⟩
      exact ⟨s, hs, by rw [hrank, hsr]⟩
  · intro s hs
    rw [hrank]
    exact mem_le_foldl_max _ _ _ (List.mem_map_of_mem _ hs)
  · intro hFAIL
    have h3m : 3 ≤ (l.map statusRank).foldl Nat.max 0 :=
      mem_le_foldl_max _ _ _ (List.mem_map_of_mem statusRank hFAIL)
    have hm : (l.map statusRank).foldl Nat.max 0 = 3 := Nat.le_antisymm hm3 h3m
    rw [collapseStatus_ne_nil l hne, hm]
    rfl
  · intro l' hperm
    have hne' : l' ≠ [] := by
      intro h0
      subst h0
      exact hne hperm.eq_nil
    rw [collapseStatus_ne_nil l hne, collapseStatus_ne_nil l' hne']
    congr 1
    exact (hperm.map statusRank).foldl_eq 0

/-- C4 witness: a bucket with one PASS and one FAIL contributor
collapses to FAIL. -/
theorem requirement_status_precedence_witness :
    collapseStatus [VerdictStatus.PASS, VerdictStatus.FAIL] = VerdictStatus.FAIL :=
  (requirement_status_precedence [VerdictStatus.PASS, VerdictStatus.FAIL]
    (by decide)).2.2.1 (by decide)

lemma count_pass_add_count_manual_le_length (l : List VerdictStatus) :
    l.count VerdictStatus.PASS + l.count VerdictStatus.MANUAL ≤ l.length := by
  induction l with
  | nil => simp
  | cons a t ih =>
    cases a <;> simp [List.count_cons] <;> omega

/-- C5.  The aggregate compliance score is
100 * passed / (total - manual), with MANUAL requirements excluded from
numerator and denominator; when the denominator is zero the result is
the explicit sentinel none (never a defaulted value), and whenever it
is non-zero every returned score q satisfies 0 ≤ q ≤ 100. -/
theorem compliance_score_bounds :
    ∀ verdicts : List VerdictStatus,
      (totalRequirements verdicts - manualRequirements verdicts = 0 →
        complianceScore verdicts = none) ∧
      (totalRequirements verdicts - manualRequirements verdicts ≠ 0 →
        complianceScore verdicts =
          some (100 * (passedRequirements verdicts : Rat) /
            ((totalRequirements verdicts - manualRequirements verdicts : Nat) : Rat)) ∧
        ∀ q, complianceScore verdicts = some q → 0 ≤ q ∧ q ≤ 100) := by
  intro v
  constructor
  · intro h
    simp [complianceScore, h]
  · intro h
    constructor
    · simp [complianceScore, h]
    · intro q hq
      simp only [complianceScore] at hq
      rw [if_neg h] at hq
      injection hq with hq
      have hd0 : 0 < totalRequirements v - manualRequirements v := Nat.pos_of_ne_zero h
      have hdR : (0 : Rat) < ((totalRequirements v - manualRequirements v : Nat) : Rat) := by
        exact_mod_cast hd0
      have hple : passedRequirements v ≤ totalRequirements v - manualRequirements v := by
        have hcount := count_pass_add_count_manual_le_length v
        unfold passedRequirements manualRequirements totalRequirements
        omega
      have hpleR : (passedRequirements v : Rat) ≤
          ((totalRequirements v - manualRequirements v : Nat) : Rat) := by
        exact_mod_cast hple
      constructor
      · rw [← hq]
        positivity
      · rw [← hq]
        rw [div_le_iff₀ hdR]
        nlinarith [hpleR]

/-- C5 witness: one PASS and one FAIL requirement give a defined score
within bounds. -/
theorem compliance_score_bounds_witness :
    complianceScore [VerdictStatus.PASS, VerdictStatus.FAIL] =
      some (100 * (passedRequirements [VerdictStatus.PASS, VerdictStatus.FAIL] : Rat) /
        ((totalRequirements [VerdictStatus.PASS, VerdictStatus.FAIL] -
          manualRequirements [VerdictStatus.PASS, VerdictStatus.FAIL] : Nat) : Rat)) ∧
    ∀ q, complianceScore [VerdictStatus.PASS, VerdictStatus.FAIL] = some q →
      0 ≤ q ∧ q ≤ 100 :=
  (compliance_score_bounds [VerdictStatus.PASS, VerdictStatus.FAIL]).2 (by decide)

/-- C7 counterexample: the same six unencrypted resource names produce a
full six-element Evidence list in the notebook-encryption check but a
truncated five-element list (with a count suffix) in the
training-job-encryption check — two different truncation policies in
the same corpus, refuting a single consistent policy. -/
theorem truncation_policy_inconsistent_counterexample :
    (∃ r, SageMakerChecks.CheckNotebookEncryption tblEmpty (smEnvAllUnencrypted sixNames) 0 =
        Except.ok r ∧
      r.Evidence = "6 notebooks without KMS encryption: [n1 n2 n3 n4 n5 n6]") ∧
    (∃ r, SageMakerChecks.CheckTrainingJobEncryption tblEmpty (smEnvAllUnencrypted sixNames) 0 =
        Except.ok r ∧
      r.Evidence = "6 training jobs without volume encryption: [n1 n2 n3 n4 n5 ... and 1 more]") :=
  ⟨⟨_, rfl, rfl⟩, ⟨_, rfl, rfl⟩⟩

lemma filterMap_map_id {α β : Type} (g : α → β) (f : β → Option α)
    (hf : ∀ a, f (g a) = some a) : ∀ ys : List α, (ys.map g).filterMap f = ys := by
  intro ys
  induction ys with
  | nil => rfl
  | cons a t ih => simp [hf, ih]

/-- C7 amended: the corpus applies no single truncation policy.  For
any list of more than five violating resources, the
notebook-encryption check puts the full list in Evidence while the
training-job-encryption check passes it through truncateList with a
budget of 5, yielding a six-element display list (top 5 plus a count
entry). -/
theorem truncation_policy_divergence
    (tbl : String → List (String × String)) (now : Nat) (xs : List String)
    (h5 : 5 < xs.length) :
    (∃ r, SageMakerChecks.CheckNotebookEncryption tbl (smEnvAllUnencrypted xs) now =
        Except.ok r ∧
      r.Evidence = failEvidence xs.length (" notebooks without KMS encryption: ") xs) ∧
    (∃ r, SageMakerChecks.CheckTrainingJobEncryption tbl (smEnvAllUnencrypted xs) now =
        Except.ok r ∧
      r.Evidence = failEvidence xs.length (" training jobs without volume encryption: ")
        (truncateList xs 5)) ∧
    (truncateList xs 5).length = 6 := by
  refine ⟨?_, ?_, ?_⟩
  · simp only [SageMakerChecks.CheckNotebookEncryption, smEnvAllUnencrypted]
    rw [filterMap_map_id (fun s => ({ NotebookInstanceName := some s } : SMNotebookSummary))
      (fun nb => some (awsToString nb.NotebookInstanceName)) (fun a => rfl) xs]
    rw [if_pos (by omega : xs.length > 0)]
    exact ⟨_, rfl, rfl⟩
  · simp only [SageMakerChecks.CheckTrainingJobEncryption, smEnvAllUnencrypted]
    rw [filterMap_map_id (fun s => ({ TrainingJobName := some s } : SMTrainingJobSummary))
      (fun job => some (awsToString job.TrainingJobName)) (fun a => rfl) xs]
    rw [if_pos (by omega : xs.length > 0)]
    exact ⟨_, rfl, rfl⟩
  · unfold truncateList
    rw [if_neg (by omega)]
    simp
    omega

/-- C7 amended witness: the six-name account. -/
theorem truncation_policy_divergence_witness :
    (∃ r, SageMakerChecks.CheckNotebookEncryption tblEmpty (smEnvAllUnencrypted sixNames) 0 =
        Except.ok r ∧
      r.Evidence = failEvidence sixNames.length (" notebooks without KMS encryption: ") sixNames) ∧
    (∃ r, SageMakerChecks.CheckTrainingJobEncryption tblEmpty (smEnvAllUnencrypted sixNames) 0 =
        Except.ok r ∧
      r.Evidence = failEvidence sixNames.length (" training jobs without volume encryption: ")
        (truncateList sixNames 5)) ∧
    (truncateList sixNames 5).length = 6 :=
  truncation_policy_divergence tblEmpty 0 sixNames (by decide)
